import Mathlib

/-!
# Verification of the star signal-scoring and alerting pipeline

Shallow embedding of the core of the repository:

* `scoring/swing_score_calculator.py` — the weighted score combination,
  qualification gate and the monadic scoring pipeline;
* `processing/technical_indicators.py` — RSI / EMA / SMA / MACD and breakout;
* `processing/volume_analyzer.py` — volume-spike detection;
* `alerts/alert_manager.py` — deduplication, rate limiting and alert creation;
* `ingestion/websocket_handler.py` — the listen/reconnect backoff loop;
* `utils/helpers.py` — `safe_divide`.

Python floats are embedded as rationals (`ℚ`), Python strings as `String`
(Python compares `str` lexicographically by code point, as `String` does),
Python `dict` results as structures, and fallible calls (database queries,
detector calls that can raise) as `Except Err α` values supplied by a
`Behavior` record, so a theorem can quantify over every behaviour of the
external collaborators.  Calls that are routed through the MCP servers'
`call_tool` cannot raise (`call_tool` catches every exception and returns an
`{"success": False}` envelope, see `mcp_tools/news_analysis_mcp_server.py`
lines 152-203), so those collaborators are embedded as total values.
-/

namespace Star

/-- Error type standing for a raised Python exception (the message). -/
abbrev Err := String

/-- `utils/helpers.py` lines 151-164: `safe_divide`. -/
def safe_divide (numerator denominator default : ℚ) : ℚ :=
  if denominator = 0 then default else numerator / denominator

/-- Python's two-argument `min`, written so that it reduces in the kernel
(Mathlib's lattice `min` on `ℚ` does not); equal to `min` by `pymin_eq`. -/
def pymin (a b : ℚ) : ℚ := if a ≤ b then a else b

/-- Python's two-argument `max`; equal to `max` by `pymax_eq`. -/
def pymax (a b : ℚ) : ℚ := if b ≤ a then a else b

theorem pymin_eq (a b : ℚ) : pymin a b = min a b := (min_def a b).symm

theorem pymax_eq (a b : ℚ) : pymax a b = max a b := by
  unfold pymax
  rw [max_comm, max_def]

/-- `do`-bind on a successful `Except` reduces to the continuation. -/
theorem ok_bind {α β : Type} (a : α) (f : α → Except Err β) :
    (Except.ok a >>= f : Except Err β) = f a := rfl

/-- `pure` in the `Except` monad is `Except.ok`. -/
theorem pure_eq_ok {α : Type} (a : α) : (pure a : Except Err α) = Except.ok a := rfl

/-! ## Default configuration

No configuration file overriding these is part of the repository source, so
the `.get(key, default)` fallbacks in `swing_score_calculator.py` lines 33-48
and the analyzer constructors are the authoritative values. -/

def volume_technical_weight : ℚ := 30/100
def catalyst_weight : ℚ := 35/100
def short_squeeze_weight : ℚ := 15/100
def fundamental_weight : ℚ := 20/100

def min_total_score : ℚ := 75
def min_volume_technical_score : ℚ := 20
def min_catalyst_score : ℚ := 25
def min_fundamental_score : ℚ := 12

def penalty_recent_dilution : ℚ := -15
def penalty_upcoming_rs : ℚ := -20
def penalty_negative_cash_flow : ℚ := -10

def bonus_exceptional_volume : ℚ := 5
def bonus_multiple_catalysts : ℚ := 3
def bonus_strong_sentiment : ℚ := 3
def bonus_pump_potential : ℚ := 8

/-- `volume_analyzer.py` line 16: `volume_spike_multiplier` default 2.5. -/
def volume_spike_multiplier : ℚ := 5/2
/-- `volume_analyzer.py` line 17: `volume_sustained_periods` default 3. -/
def volume_sustained_periods : ℕ := 3

/-! ## Sub-score result shapes (`swing_score_calculator.py` lines 179-333) -/

/-- Result of `_calculate_volume_technical_score` (lines 265-269). -/
structure VolumeTechScore where
  score : ℚ
  factors : List String
  exceptional_volume : Bool
deriving DecidableEq, Repr

/-- One classified catalyst entry (`catalyst_detector.py` lines 109-116). -/
structure CatalystItem where
  catalyst_type : String
  title : String
  sentiment_score : ℚ
  weight : ℚ
  score : ℚ
deriving DecidableEq, Repr

/-- Result of `_calculate_catalyst_score` (lines 291-296). -/
structure CatalystScore where
  score : ℚ
  catalysts : List CatalystItem
  strongest_catalyst : Option String
  strong_sentiment : Bool
deriving DecidableEq, Repr

/-- Result of `_calculate_short_squeeze_score` (lines 311-315). -/
structure ShortSqueezeScore where
  score : ℚ
  has_potential : Bool
  factors : List String
deriving DecidableEq, Repr

/-- Result of `_calculate_fundamental_score` (lines 328-333). -/
structure FundamentalScore where
  score : ℚ
  passes_filters : Bool
  factors : List String
  risk_factors : List String
deriving DecidableEq, Repr

/-- The fields of `detect_pump_potential`'s result consumed by the
calculator (`pump_potential_detector.py`). -/
structure PumpPotential where
  score : ℚ
  has_pump_potential : Bool
deriving DecidableEq, Repr

/-- The fields of `check_dilution_risk`'s result consumed by the calculator
(`dilution_checker.py` lines 125-137). -/
structure DilutionRisk where
  has_dilution_risk : Bool
  has_recent_dilution : Bool
  has_reverse_split : Bool
deriving DecidableEq, Repr

/-- The dictionary returned by `calculate_score` (lines 179-198). -/
structure ScoreResult where
  ticker : String
  total_score : ℚ
  qualifies : Bool
  volume_technical : VolumeTechScore
  catalyst : CatalystScore
  short_squeeze : ShortSqueezeScore
  fundamental : FundamentalScore
  pump_potential : PumpPotential
  dilution_risk : DilutionRisk
  penalties_total : ℚ
  penalty_reasons : List String
  bonuses_total : ℚ
  bonus_reasons : List String
deriving DecidableEq, Repr

/-! ## Score combination (`swing_score_calculator.py` lines 115-198)

The pure tail of `calculate_score`: everything from the weighted total down
to the returned dictionary, as a function of the six sub-results. -/

/-- Lines 124-140: penalty accumulation (`penalties_total += abs(penalty)`). -/
def penaltiesTotal (dilution_risk : DilutionRisk) (fundamental_score : FundamentalScore) : ℚ :=
  (if dilution_risk.has_recent_dilution then |penalty_recent_dilution| else 0) +
  (if dilution_risk.has_reverse_split then |penalty_upcoming_rs| else 0) +
  (if !fundamental_score.passes_filters then |penalty_negative_cash_flow| else 0)

/-- Lines 124-140: the accumulated `penalty_reasons` list. -/
def penaltyReasons (dilution_risk : DilutionRisk) (fundamental_score : FundamentalScore) : List String :=
  (if dilution_risk.has_recent_dilution then ["Recent dilution"] else []) ++
  (if dilution_risk.has_reverse_split then ["Reverse split detected"] else []) ++
  (if !fundamental_score.passes_filters then ["Financial filters failed"] else [])

/-- Lines 143-164: bonus accumulation (`bonuses_total += bonus`). -/
def bonusesTotal (volume_score : VolumeTechScore) (catalyst_score : CatalystScore)
    (pump_potential : PumpPotential) : ℚ :=
  (if volume_score.exceptional_volume then bonus_exceptional_volume else 0) +
  (if catalyst_score.catalysts.length > 1 then bonus_multiple_catalysts else 0) +
  (if catalyst_score.strong_sentiment then bonus_strong_sentiment else 0) +
  (if pump_potential.has_pump_potential then bonus_pump_potential else 0)

/-- Lines 143-164: the accumulated `bonus_reasons` list. -/
def bonusReasons (volume_score : VolumeTechScore) (catalyst_score : CatalystScore)
    (pump_potential : PumpPotential) : List String :=
  (if volume_score.exceptional_volume then ["Exceptional volume spike"] else []) ++
  (if catalyst_score.catalysts.length > 1 then ["Multiple catalysts"] else []) ++
  (if catalyst_score.strong_sentiment then ["Strong sentiment"] else []) ++
  (if pump_potential.has_pump_potential then ["Pump potential"] else [])

/-- `swing_score_calculator.py` lines 115-198: weighted total, penalties,
bonuses, clamping and the qualification gate, producing the result
dictionary. -/
def combineScores (ticker : String) (volume_score : VolumeTechScore)
    (catalyst_score : CatalystScore) (short_squeeze_score : ShortSqueezeScore)
    (fundamental_score : FundamentalScore) (pump_potential : PumpPotential)
    (dilution_risk : DilutionRisk) : ScoreResult :=
  -- lines 116-121
  let total_score : ℚ :=
    volume_score.score * volume_technical_weight +
    catalyst_score.score * catalyst_weight +
    short_squeeze_score.score * short_squeeze_weight +
    fundamental_score.score * fundamental_weight
  let penalties_total := penaltiesTotal dilution_risk fundamental_score
  let bonuses_total := bonusesTotal volume_score catalyst_score pump_potential
  -- lines 167-168: final_score = max(0.0, min(100.0, total - penalties + bonuses))
  let final_score := pymax 0 (pymin 100 (total_score - penalties_total + bonuses_total))
  -- lines 171-177: the qualification gate
  let qualifies : Bool :=
    decide (final_score ≥ min_total_score) &&
    decide (volume_score.score ≥ min_volume_technical_score) &&
    decide (catalyst_score.score ≥ min_catalyst_score) &&
    decide (fundamental_score.score ≥ min_fundamental_score) &&
    !dilution_risk.has_dilution_risk
  { ticker := ticker
    total_score := final_score
    qualifies := qualifies
    volume_technical := volume_score
    catalyst := catalyst_score
    short_squeeze := short_squeeze_score
    fundamental := fundamental_score
    pump_potential := pump_potential
    dilution_risk := dilution_risk
    penalties_total := penalties_total
    penalty_reasons := penaltyReasons dilution_risk fundamental_score
    bonuses_total := bonuses_total
    bonus_reasons := bonusReasons volume_score catalyst_score pump_potential }

/-! Spec-side formulations for the refinement statements of C2: penalties as
the sum of the literal magnitudes named by the spec, bonuses as the sum of
the literal bonus values named by the spec. -/

/-- The spec's description of the penalty sum: "recent dilution 15, reverse
split 20, failed fundamental filters 10", magnitude-summed. -/
def specPenalties (dilution_risk : DilutionRisk) (fundamental_score : FundamentalScore) : ℚ :=
  (if dilution_risk.has_recent_dilution then 15 else 0) +
  (if dilution_risk.has_reverse_split then 20 else 0) +
  (if fundamental_score.passes_filters then 0 else 10)

/-- The spec's description of the bonus sum: "exceptional volume 5, more than
one catalyst 3, strong sentiment 3, pump potential 8". -/
def specBonuses (volume_score : VolumeTechScore) (catalyst_score : CatalystScore)
    (pump_potential : PumpPotential) : ℚ :=
  (if volume_score.exceptional_volume then 5 else 0) +
  (if catalyst_score.catalysts.length > 1 then 3 else 0) +
  (if catalyst_score.strong_sentiment then 3 else 0) +
  (if pump_potential.has_pump_potential then 8 else 0)

/-! ## Technical indicators (`processing/technical_indicators.py`)

Default periods from the constructor (lines 19-26): RSI 14, MACD 12/26,
MACD signal 9, SMA short 10, SMA long 50; RSI thresholds 30/70. -/

def rsi_period : ℕ := 14
def rsi_oversold_threshold : ℚ := 30
def rsi_overbought_threshold : ℚ := 70
def macd_fast : ℕ := 12
def macd_slow : ℕ := 26
def macd_signal_period : ℕ := 9
def sma_short_period : ℕ := 10
def sma_long_period : ℕ := 50

/-- `np.diff`: consecutive differences of a series. -/
def npDiff : List ℚ → List ℚ
  | [] => []
  | [_] => []
  | a :: b :: rest => (b - a) :: npDiff (b :: rest)

/-- The Wilder smoothing loop of `_calculate_rsi` lines 134-136: starting
from a seed average, each step computes `(avg*(period-1) + x)/period`.
Returns the sequence of averages at indices `period, period+1, ...`. -/
def wilderSmooth (period : ℕ) (seed : ℚ) : List ℚ → List ℚ
  | [] => [seed]
  | x :: xs => seed :: wilderSmooth period ((seed * (period - 1) + x) / period) xs

/-- `technical_indicators.py` lines 106-142: `_calculate_rsi`.  Returns the
RSI values at indices `period, ..., len-1` (the Python code fills two arrays
of the full length and returns `rsi[period:]`; indices below `period` are
never exposed).  `rs = np.where(avg_losses != 0, avg_gains / avg_losses, 0)`
becomes the conditional in the final map. -/
def calculate_rsi (period : ℕ) (closes : List ℚ) : List ℚ :=
  if closes.length < period + 1 then []
  else
    let deltas := npDiff closes
    let gains := deltas.map (fun d => if 0 < d then d else 0)
    let losses := deltas.map (fun d => if d < 0 then -d else 0)
    let seed_gain := (gains.take period).sum / period
    let seed_loss := (losses.take period).sum / period
    let avg_gains := wilderSmooth period seed_gain (gains.drop period)
    let avg_losses := wilderSmooth period seed_loss (losses.drop period)
    (avg_gains.zip avg_losses).map fun gl =>
      let rs := if gl.2 ≠ 0 then gl.1 / gl.2 else 0
      100 - 100 / (1 + rs)

/-- The smoothed average losses exposed by `_calculate_rsi` (the
`avg_losses[period:]` array), for stating the C4 property. -/
def rsiAvgLosses (period : ℕ) (closes : List ℚ) : List ℚ :=
  if closes.length < period + 1 then []
  else
    let deltas := npDiff closes
    let losses := deltas.map (fun d => if d < 0 then -d else 0)
    let seed_loss := (losses.take period).sum / period
    wilderSmooth period seed_loss (losses.drop period)

/-- `technical_indicators.py` lines 209-226: `_calculate_sma`. -/
def calculate_sma (period : ℕ) (data : List ℚ) : List ℚ :=
  if data.length < period then []
  else (List.range (data.length - period + 1)).map
    fun i => ((data.drop i).take period).sum / period

/-- The recurrence of `_calculate_ema` lines 248-249: from the seed, each
step is `(x - ema)*multiplier + ema` over the values `data[period:]`. -/
def emaSteps (multiplier : ℚ) (e : ℚ) : List ℚ → List ℚ
  | [] => [e]
  | x :: xs => e :: emaSteps multiplier ((x - e) * multiplier + e) xs

/-- `technical_indicators.py` lines 228-251: `_calculate_ema`. -/
def calculate_ema (period : ℕ) (data : List ℚ) : List ℚ :=
  if data.length < period then []
  else emaSteps (2 / (period + 1)) ((data.take period).sum / period) (data.drop period)

/-- The fields of the dictionary returned by `_calculate_macd`. -/
structure MacdData where
  macd : ℚ
  signal : ℚ
  histogram : ℚ
  trend : String
deriving DecidableEq, Repr

/-- `_calculate_macd` returns `{"error": "Insufficient data"}` when fewer
than `macd_slow` points are available. -/
inductive MacdResult
  | insufficient
  | ok (d : MacdData)
deriving DecidableEq, Repr

/-- The last element of a list, `xs[-1]`, defaulting like the Python guards. -/
def lastD (xs : List ℚ) (d : ℚ) : ℚ := (xs.getLast?).getD d

/-- `xs[-2]`: the second-to-last element. -/
def secondLastD (xs : List ℚ) (d : ℚ) : ℚ := (xs.reverse.drop 1).headD d

/-- `technical_indicators.py` lines 144-207: `_calculate_macd`. -/
def calculate_macd (closes : List ℚ) : MacdResult :=
  if closes.length < macd_slow then .insufficient
  else
    let ema_fast := calculate_ema macd_fast closes
    let ema_slow := calculate_ema macd_slow closes
    -- lines 162-165: trim the longer series from the front
    let ema_fast := if ema_fast.length > ema_slow.length then
        ema_fast.drop (ema_fast.length - ema_slow.length) else ema_fast
    let ema_slow := if ema_slow.length > ema_fast.length then
        ema_slow.drop (ema_slow.length - ema_fast.length) else ema_slow
    let macd_line := (ema_fast.zip ema_slow).map fun p => p.1 - p.2
    let signal_line := if macd_line.length < macd_signal_period then []
      else calculate_ema macd_signal_period macd_line
    if signal_line.length > 0 ∧ macd_line.length ≥ signal_line.length then
      let current_macd := lastD macd_line 0
      let current_signal := lastD signal_line 0
      let trend := if macd_line.length > 1 ∧ signal_line.length > 1 then
          let prev_macd := secondLastD macd_line 0
          let prev_signal := secondLastD signal_line 0
          if prev_macd ≤ prev_signal ∧ current_macd > current_signal then "bullish"
          else if prev_macd ≥ prev_signal ∧ current_macd < current_signal then "bearish"
          else "neutral"
        else "neutral"
      .ok { macd := current_macd, signal := current_signal,
            histogram := current_macd - current_signal, trend := trend }
    else
      .ok { macd := lastD macd_line 0, signal := 0, histogram := 0, trend := "neutral" }

/-- The `signals` dictionary of `calculate_all_indicators` (lines 84-93). -/
structure Signals where
  rsi_oversold : Bool
  rsi_overbought : Bool
  bullish_crossover : Bool
  macd_bullish : Bool
  price_above_sma : Bool
deriving DecidableEq, Repr

/-- `calculate_all_indicators` returns `{"error": "Insufficient data"}` when
fewer than `sma_long` closes are available (line 60-61); otherwise the
indicator dictionary, of which the scorer consumes the `signals`. -/
inductive TechIndicators
  | insufficient
  | ok (signals : Signals)
deriving DecidableEq, Repr

/-- `technical_indicators.py` lines 37-104: `calculate_all_indicators`, as a
function of the retrieved close series (already in time order, as produced
by the `sort_index` on line 67). -/
def calculate_all_indicators (closes : List ℚ) : TechIndicators :=
  if closes.length < sma_long_period then .insufficient
  else
    let rsi := calculate_rsi rsi_period closes
    let macd_data := calculate_macd closes
    let sma_short := calculate_sma sma_short_period closes
    let sma_long := calculate_sma sma_long_period closes
    -- lines 78-81: current values, `None` when the arrays are empty
    let current_rsi : Option ℚ := if rsi.length > 0 then some (lastD rsi 0) else none
    let current_price : Option ℚ := if closes.length > 0 then some (lastD closes 0) else none
    let current_sma_short : Option ℚ :=
      if sma_short.length > 0 then some (lastD sma_short 0) else none
    let current_sma_long : Option ℚ :=
      if sma_long.length > 0 then some (lastD sma_long 0) else none
    .ok {
      rsi_oversold := match current_rsi with
        | some r => decide (r < rsi_oversold_threshold)
        | none => false
      rsi_overbought := match current_rsi with
        | some r => decide (r > rsi_overbought_threshold)
        | none => false
      bullish_crossover := match current_sma_short, current_sma_long with
        | some _, some _ =>
            decide (sma_short.length > 1) && decide (sma_long.length > 1) &&
            decide (lastD sma_short 0 > lastD sma_long 0) &&
            decide (secondLastD sma_short 0 ≤ secondLastD sma_long 0)
        | _, _ => false
      -- line 90: `macd_data["signal"] == "bullish"`.  The `"signal"` entry of
      -- the MACD dictionary is the float signal-line value (the trend string
      -- is stored under `"trend"`), and in Python a float compared with a
      -- string with `==` is `False`; so this signal is identically false.
      -- (`macd_data` cannot be the `{"error": ...}` dictionary here because
      -- `closes.length ≥ 50 > 26`.)
      macd_bullish := match macd_data with
        | .ok _ => false
        | .insufficient => false
      price_above_sma := match current_price, current_sma_short with
        | some p, some s => decide (p > s)
        | _, _ => false }

/-! ## Volume analysis (`processing/volume_analyzer.py`) -/

/-- `utils/helpers.py` line 63-72: `normalize_ticker`. -/
def normalize_ticker (ticker : String) : String := ticker.trim.toUpper

/-- The fields of `ts_client.get_volume_statistics`'s result consumed by the
volume analyzer. -/
structure VolumeStats where
  average_volume : ℚ
  median_volume : ℚ
deriving DecidableEq, Repr

/-- The dictionary returned by `detect_volume_spike`.  The insufficient-data
branch (lines 60-67) omits the `median_volume` and `is_sustained` keys and
adds a `reason`; the other branch (lines 81-90) is the converse. -/
structure SpikeResult where
  ticker : String
  has_spike : Bool
  current_volume : ℕ
  average_volume : ℚ
  median_volume : Option ℚ
  multiplier : ℚ
  is_sustained : Option Bool
  reason : Option String
deriving DecidableEq, Repr

/-- `volume_analyzer.py` lines 97-146: `_check_sustained_volume`, as a
function of the recent bar volumes (`get_price_history`) and the volume
statistics.  Any exception from the two queries is caught and turned into
`False` (lines 144-146). -/
def check_sustained_volume (history : Except Err (List ℕ))
    (stats : Except Err VolumeStats) : Bool :=
  let computation : Except Err Bool := do
    let prices ← history
    if prices.length < volume_sustained_periods then
      return false
    else
      let volume_stats ← stats
      let avg_volume := volume_stats.average_volume
      if avg_volume = 0 then
        return false
      else
        -- lines 136-142: count of the last `sustained_periods` bars whose
        -- volume is at least 70% of the spike threshold over the baseline
        let window := prices.drop (prices.length - volume_sustained_periods)
        let elevated_periods :=
          (window.filter fun v => decide ((v : ℚ) ≥ avg_volume * (volume_spike_multiplier * (7/10)))).length
        return decide ((elevated_periods : ℚ) ≥ (volume_sustained_periods : ℚ) * (7/10))
  match computation with
  | .ok b => b
  | .error _ => false

/-- `volume_analyzer.py` lines 29-95: `detect_volume_spike`, as a function of
the volume-statistics query (which can raise) and the bar history used by
the sustained check. -/
def detect_volume_spike (stats : Except Err VolumeStats)
    (history : Except Err (List ℕ)) (ticker : String) (current_volume : ℕ) :
    Except Err SpikeResult := do
  let ticker := normalize_ticker ticker
  let volume_stats ← stats
  let avg_volume := volume_stats.average_volume
  let median_volume := volume_stats.median_volume
  if avg_volume = 0 then
    -- lines 59-67
    return { ticker := ticker, has_spike := false, current_volume := current_volume,
             average_volume := 0, median_volume := none, multiplier := 0,
             is_sustained := none, reason := some "Insufficient historical data" }
  else
    -- lines 69-90
    let multiplier := safe_divide (current_volume : ℚ) avg_volume 0
    let has_spike := decide (multiplier ≥ volume_spike_multiplier)
    let is_sustained := check_sustained_volume history stats
    return { ticker := ticker, has_spike := has_spike, current_volume := current_volume,
             average_volume := avg_volume, median_volume := some median_volume,
             multiplier := multiplier, is_sustained := some is_sustained,
             reason := none }

/-! ## Breakout detection (`technical_indicators.py` lines 253-285) -/

/-- The fields of `ts_client.get_current_price`'s result consumed here. -/
structure Bar where
  close : ℚ
  volume : ℕ
deriving DecidableEq, Repr

/-- `ts_client.get_price_range`'s result (`storage/timeseries_client.py`
lines 93-100): each field may be `None`. -/
structure PriceRange where
  high : Option ℚ
  low : Option ℚ
  close : Option ℚ
deriving DecidableEq, Repr

/-- The field of `detect_breakout`'s result consumed by the scorer. -/
structure BreakoutResult where
  has_breakout : Bool
deriving DecidableEq, Repr

/-- `technical_indicators.py` lines 253-285: `detect_breakout`.  Line 270
guards with `if not current_price_data or not price_range.get("high")`; both
`None` and `0.0` are falsy in Python. -/
def detect_breakout (range : Except Err PriceRange)
    (current : Except Err (Option Bar)) : Except Err BreakoutResult := do
  let price_range ← range
  let current_price_data ← current
  match current_price_data with
  | none => return { has_breakout := false }
  | some bar =>
    if price_range.high.getD 0 = 0 then
      return { has_breakout := false }
    else
      let current_price := bar.close
      let resistance := price_range.high.getD 0
      return { has_breakout := decide (current_price > resistance * (102/100)) }

/-! ## Catalyst analysis (`processing/catalyst_detector.py` lines 55-134) -/

/-- One news article as delivered by the news MCP tool. -/
structure Article where
  catalyst_type : String
  title : String
  sentiment_score : ℚ
deriving DecidableEq, Repr

/-- The envelope returned by `news_server.call_tool` for
`get_recent_news_for_ticker`: `call_tool` catches every exception and
reports failure via `success = false` (never raises). -/
structure NewsEnvelope where
  success : Bool
  articles : List Article
deriving DecidableEq, Repr

/-- The `catalyst_weights` dictionary (lines 88-95) with its `.get(_, 0.5)`
default (line 106). -/
def catalystWeightOf : String → ℚ
  | "biotech_phase3" => 1
  | "buyout_merger" => 95/100
  | "partnership" => 80/100
  | "funding" => 70/100
  | "short_squeeze" => 85/100
  | "other" => 50/100
  | _ => 1/2

/-- `sum(catalyst_weights.values())` (line 125): 1+0.95+0.80+0.70+0.85+0.50. -/
def catalystMaxPossible : ℚ := 48/10

/-- The fields of `analyze_catalyst_strength`'s result that
`_calculate_catalyst_score` consumes. -/
structure CatalystAnalysis where
  catalyst_score : ℚ
  catalysts : List CatalystItem
  strongest_catalyst : Option String
deriving DecidableEq, Repr

/-- `catalyst_detector.py` lines 55-134: `analyze_catalyst_strength` as a
function of the news-tool envelope.  Lines 77-83 return a zero analysis when
the envelope reports failure; otherwise the articles are folded exactly as
the `for article in news_articles` loop does (confidence is the constant
1.0, line 104), and the total is normalized by `max_possible` (line 126). -/
def analyze_catalyst_strength (news : NewsEnvelope) : CatalystAnalysis :=
  if news.success = false then
    { catalyst_score := 0, catalysts := [], strongest_catalyst := none }
  else
    let step := fun (st : List CatalystItem × ℚ × Option String × ℚ) (article : Article) =>
      let weight := catalystWeightOf article.catalyst_type
      let score := weight * |article.sentiment_score| * 1
      let item : CatalystItem :=
        { catalyst_type := article.catalyst_type, title := article.title,
          sentiment_score := article.sentiment_score, weight := weight, score := score }
      let (items, total, strongest, max_weight) := st
      if score > max_weight then
        (items ++ [item], total + score, some article.catalyst_type, score)
      else
        (items ++ [item], total + score, strongest, max_weight)
    let (items, total_score, strongest, _) := news.articles.foldl step ([], 0, none, 0)
    { catalyst_score := total_score / catalystMaxPossible * 100,
      catalysts := items, strongest_catalyst := strongest }

/-! ## The scoring pipeline (`swing_score_calculator.py` lines 71-333)

The short-squeeze and pump-potential adapters are modelled from their
sources: both consume `call_tool` envelopes (which never raise) but then
await `volume_analyzer.detect_volume_spike` outside any `try`
(`short_squeeze_detector.py` line 109, `pump_potential_detector.py` lines
134-137), so a raising volume-statistics query propagates out of them and
out of `calculate_score`. -/

/-- Python truthiness of an optional number: `None` and `0` are falsy. -/
def truthy (x : Option ℚ) : Bool := decide (x.getD 0 ≠ 0)

/-- Python's `a or b` on optional numbers: `a` when truthy, else `b`. -/
def pyOr (a b : Option ℚ) : Option ℚ := if truthy a then a else b

/-- Python's `a or b` on optional strings (`None` and `""` are falsy). -/
def pyOrStr (a b : Option String) : Option String :=
  match a with
  | some e => if e = "" then b else some e
  | none => b

/-- The fields of the `get_short_interest` tool data consumed by the
short-squeeze and pump-potential detectors; an absent key is `none`, and a
`data` dict may carry an `"error"` entry. -/
structure ShortInterestData where
  error : Option String
  short_percent_float : Option ℚ
  days_to_cover : Option ℚ
  shares_short : Option ℚ
  shares_outstanding : Option ℚ
  average_volume : Option ℕ
deriving DecidableEq, Repr

/-- The `call_tool` envelope for `get_short_interest` (`call_tool` catches
every exception, so the envelope itself is total). -/
structure ShortInterestEnvelope where
  success : Bool
  error : Option String
  data : ShortInterestData
deriving DecidableEq, Repr

/-- The empty data dict `{}` used when an envelope reports failure. -/
def emptyShortInterestData : ShortInterestData :=
  { error := none, short_percent_float := none, days_to_cover := none,
    shares_short := none, shares_outstanding := none, average_volume := none }

/-- The fields of the `get_fundamentals` tool data consumed by
`detect_pump_potential`. -/
structure FundamentalsData where
  error : Option String
  float_shares : Option ℚ
  market_cap : Option ℚ
deriving DecidableEq, Repr

/-- The `call_tool` envelope for `get_fundamentals`. -/
structure FundamentalsEnvelope where
  success : Bool
  data : FundamentalsData
deriving DecidableEq, Repr

/-- The dictionary returned by `detect_short_squeeze_potential`
(`short_squeeze_detector.py` lines 56-61, 66-71 and 123-132), restricted to
the fields its consumers read (`_calculate_short_squeeze_score` reads
`score`, `has_squeeze_potential` and `factors`, with `.get` defaults for the
keys absent in the failure branches). -/
structure SqueezeAnalysis where
  score : ℚ
  has_squeeze_potential : Bool
  factors : List String
  error : Option String
deriving DecidableEq, Repr

/-- `short_squeeze` config defaults (`short_squeeze_detector.py` lines
20-21): `min_short_interest_pct` 20, `min_days_to_cover` 5. -/
def short_squeeze_min_short_interest : ℚ := 20
def short_squeeze_min_days_to_cover : ℚ := 5

/-- `short_squeeze_detector.py` lines 35-132: `detect_short_squeeze_potential`
as a function of the short-interest envelope and the storage behaviour of
its volume-spike check.  Lines 55-71 degrade envelope failures before any
raising await; line 109 awaits `detect_volume_spike(ticker, avg_volume or
0)` outside any `try`, so a raising volume-statistics query propagates.
Lines 117-121 compute `has_potential` as a Python `and`-chain over
truthiness; it is collapsed here to the `Bool` it is truthy-equivalent to.
The `:.2f` factor formatting is abstracted to `toString`. -/
def detect_short_squeeze_potential (env : ShortInterestEnvelope)
    (stats : Except Err VolumeStats) (history : Except Err (List ℕ))
    (ticker : String) : Except Err SqueezeAnalysis := do
  let ticker := normalize_ticker ticker
  if env.success = false then
    -- lines 55-61
    return { score := 0, has_squeeze_potential := false, factors := [],
             error := env.error }
  else if env.data.error ≠ none then
    -- lines 65-71
    return { score := 0, has_squeeze_potential := false, factors := [],
             error := env.data.error }
  else
    let short_data := env.data
    let spf := short_data.short_percent_float
    let dtc := short_data.days_to_cover
    -- lines 84-90: short interest percentage (truthiness guard)
    let p1 : ℚ × List String :=
      if truthy spf then
        if spf.getD 0 ≥ short_squeeze_min_short_interest then
          (35/100, ["High short interest: " ++ toString (spf.getD 0) ++ "%"])
        else if spf.getD 0 ≥ short_squeeze_min_short_interest * (7/10) then
          (20/100, ["Moderate short interest: " ++ toString (spf.getD 0) ++ "%"])
        else (0, [])
      else (0, [])
    -- lines 93-99: days to cover
    let p2 : ℚ × List String :=
      if truthy dtc then
        if dtc.getD 0 ≥ short_squeeze_min_days_to_cover then
          (25/100, ["High days to cover: " ++ toString (dtc.getD 0)])
        else if dtc.getD 0 ≥ short_squeeze_min_days_to_cover * (7/10) then
          (15/100, ["Moderate days to cover: " ++ toString (dtc.getD 0)])
        else (0, [])
      else (0, [])
    -- lines 102-106: float size; `shares_short or 0` is `.getD 0`
    let p3 : ℚ × List String :=
      if truthy short_data.shares_outstanding &&
          decide (short_data.average_volume.getD 0 ≠ 0) then
        let float_ratio := safe_divide (short_data.shares_short.getD 0)
          (short_data.shares_outstanding.getD 0) 0
        if float_ratio < 1/2 then (20/100, ["Constrained float"]) else (0, [])
      else (0, [])
    -- line 109: the raising volume-spike await (`avg_volume or 0`)
    let volume_analysis ← detect_volume_spike stats history ticker
      (short_data.average_volume.getD 0)
    let p4 : ℚ × List String :=
      if volume_analysis.has_spike then (20/100, ["Volume spike detected"])
      else (0, [])
    -- line 115
    let score := pymin ((p1.1 + p2.1 + p3.1 + p4.1) * 100) 100
    -- lines 117-121
    let has_potential :=
      truthy spf && decide (spf.getD 0 ≥ short_squeeze_min_short_interest) &&
      truthy dtc && decide (dtc.getD 0 ≥ short_squeeze_min_days_to_cover) &&
      decide (score ≥ 50)
    return { score := score, has_squeeze_potential := has_potential,
             factors := p1.2 ++ p2.2 ++ p3.2 ++ p4.2, error := none }

/-- The dictionary returned by `detect_pump_potential`
(`pump_potential_detector.py` lines 74-82 and 165-175), restricted to the
fields its consumers read. -/
structure PumpAnalysis where
  score : ℚ
  has_pump_potential : Bool
  factors : List String
  error : Option String
deriving DecidableEq, Repr

/-- `pump_potential` config defaults (`pump_potential_detector.py` lines
22-30). -/
def pump_max_float_shares_millions : ℚ := 50
def pump_max_market_cap_millions : ℚ := 500
def pump_min_short_percent_float : ℚ := 15
def pump_min_score_for_flag : ℚ := 55

/-- `pump_potential_detector.py` lines 134-145: the volume-spike points of
`detect_pump_potential`.  The `detect_volume_spike` await is outside any
`try`, so it can raise; `None` and `0` volumes skip the block. -/
def pumpVolumePoints (stats : Except Err VolumeStats)
    (history : Except Err (List ℕ)) (ticker : String)
    (current_volume : Option ℕ) : Except Err (ℚ × List String) :=
  if current_volume.getD 0 ≠ 0 then do
    let volume_spike ← detect_volume_spike stats history ticker (current_volume.getD 0)
    if volume_spike.has_spike then
      let mult := volume_spike.multiplier
      if mult ≥ 3 then
        pure ((20 : ℚ), ["Volume spike: " ++ toString mult ++ "x average"])
      else
        pure ((10 : ℚ), ["Above-average volume: " ++ toString mult ++ "x"])
    else
      pure ((0 : ℚ), ([] : List String))
  else
    pure ((0 : ℚ), ([] : List String))

/-- `pump_potential_detector.py` lines 45-175: `detect_pump_potential`.
Unlike the volume_technical path, a *missing* volume is not treated like 0
here: lines 125-133 substitute the short-interest `average_volume` or the
latest bar's volume for `None` (the `try` around `get_current_price`
swallows a raising query), while `0` skips the volume block.  The `try` on
lines 148-160 wraps both technical awaits and keeps points already added
before a raise.  Line 167's `round(score, 1)` is the identity here: every
contribution is an integer. -/
def detect_pump_potential (shortEnv : ShortInterestEnvelope)
    (fundEnv : FundamentalsEnvelope) (stats : Except Err VolumeStats)
    (history : Except Err (List ℕ)) (currentPrice : Except Err (Option Bar))
    (range : Except Err PriceRange) (priceHistory : Except Err (List ℚ))
    (ticker : String) (current_volume : Option ℕ) : Except Err PumpAnalysis := do
  let ticker := normalize_ticker ticker
  -- lines 71-72: a failed envelope degrades to the empty data dict
  let short_data := if shortEnv.success then shortEnv.data else emptyShortInterestData
  let fund_data := if fundEnv.success then fundEnv.data
    else { error := none, float_shares := none, market_cap := none }
  -- lines 74-82
  if short_data.error ≠ none ∨ fund_data.error ≠ none then
    return { score := 0, has_pump_potential := false, factors := [],
             error := pyOrStr short_data.error fund_data.error }
  else
    -- line 84: Python `or` under truthiness
    let float_shares := pyOr fund_data.float_shares short_data.shares_outstanding
    -- lines 91-98: low float (truthiness guard)
    let p1 : ℚ × List String :=
      if truthy float_shares then
        let float_millions := float_shares.getD 0 / 1000000
        if float_millions ≤ pump_max_float_shares_millions * (3/10) then
          (25, ["Very low float: " ++ toString float_millions ++ "M shares"])
        else if float_millions ≤ pump_max_float_shares_millions then
          (15, ["Low float: " ++ toString float_millions ++ "M shares"])
        else (0, [])
      else (0, [])
    -- lines 101-108: small market cap (`is not None`, not truthiness)
    let p2 : ℚ × List String :=
      match fund_data.market_cap with
      | some mc =>
        let cap_millions := mc / 1000000
        if cap_millions ≤ pump_max_market_cap_millions * (2/10) then
          (20, ["Small cap: " ++ toString cap_millions ++ "M"])
        else if cap_millions ≤ pump_max_market_cap_millions then
          (10, ["Mid-small cap: " ++ toString cap_millions ++ "M"])
        else (0, [])
      | none => (0, [])
    -- lines 111-117: short interest (`is not None`)
    let p3 : ℚ × List String :=
      match short_data.short_percent_float with
      | some x =>
        if x ≥ pump_min_short_percent_float * (3/2) then
          (25, ["High short interest: " ++ toString x ++ "% of float"])
        else if x ≥ pump_min_short_percent_float then
          (15, ["Elevated short interest: " ++ toString x ++ "%"])
        else (0, [])
      | none => (0, [])
    -- lines 120-122: days to cover
    let p4 : ℚ × List String :=
      match short_data.days_to_cover with
      | some d => if d ≥ 5 then (10, ["Days to cover: " ++ toString d]) else (0, [])
      | none => (0, [])
    -- lines 125-126: substitute the average volume for a missing one
    let current_volume := match current_volume with
      | none => if short_data.average_volume.getD 0 ≠ 0 then
          some (short_data.average_volume.getD 0) else none
      | some v => some v
    -- lines 127-133: fall back to the latest bar's volume; the `try`
    -- swallows a raising query (the volume stays missing then)
    let current_volume := match current_volume with
      | none =>
        (match currentPrice with
         | .ok (some bar) => some bar.volume
         | .ok none => none
         | .error _ => none)
      | some v => some v
    -- lines 134-145
    let volPart ← pumpVolumePoints stats history ticker current_volume
    -- lines 148-160: breakout/momentum boost inside a `try`; points added
    -- before a raise are kept, the rest of the block is skipped
    let techBoost : ℚ × List String :=
      match detect_breakout range currentPrice with
      | .error _ => (0, [])
      | .ok breakout =>
        let t1 : ℚ × List String :=
          if breakout.has_breakout then (15, ["Price breakout detected"]) else (0, [])
        match priceHistory with
        | .error _ => t1
        | .ok closes =>
          let t2 : ℚ × List String :=
            match calculate_all_indicators closes with
            | .insufficient => (0, [])
            | .ok signals =>
              if signals.price_above_sma || signals.macd_bullish then
                (5, ["Bullish technicals"])
              else (0, [])
          (t1.1 + t2.1, t1.2 ++ t2.2)
    -- lines 162-163
    let score := pymin (p1.1 + p2.1 + p3.1 + p4.1 + volPart.1 + techBoost.1) 100
    return { score := score,
             has_pump_potential := decide (score ≥ pump_min_score_for_flag),
             factors := p1.2 ++ p2.2 ++ p3.2 ++ p4.2 ++ volPart.2 ++ techBoost.2,
             error := none }

/-- The fields of `analyze_fundamentals`'s result consumed by
`_calculate_fundamental_score`.  Every await of the fundamental analyzer
goes through the fundamentals MCP server's `call_tool`
(`fundamental_analyzer.py` lines 48 and 72), which catches every exception,
so this adapter is total; its internal scoring is an opaque external input
per the contract surface (spec section 4.3). -/
structure FundAnalysis where
  score : ℚ
  passes_filters : Bool
  factors : List String
  risk_factors : List String
deriving DecidableEq, Repr

/-- One behaviour of every external collaborator of a scoring call.  Fields
wrapped in `Except` correspond to storage queries that can raise; the tool
envelopes and the fundamental/dilution adapter results are total because
every await on their call chains goes through `call_tool`, which catches
all exceptions.  The short-squeeze and pump-potential adapters are *not*
behaviour fields: they are computed by `detect_short_squeeze_potential` and
`detect_pump_potential` above, whose volume-spike checks can raise through
`volumeStats`. -/
structure Behavior where
  /-- `ts_client.get_current_price` (used at line 91 of the calculator,
  inside `detect_breakout`, and as the pump detector's volume fallback);
  raises on a database error. -/
  currentPrice : Except Err (Option Bar)
  /-- `ts_client.get_volume_statistics`; raises on a database error. -/
  volumeStats : Except Err VolumeStats
  /-- `ts_client.get_price_history` as used by `_check_sustained_volume`
  (bar volumes). -/
  sustainedHistory : Except Err (List ℕ)
  /-- `ts_client.get_price_history` as used by `calculate_all_indicators`
  (the close series, in time order). -/
  priceHistory : Except Err (List ℚ)
  /-- `ts_client.get_price_range` used by `detect_breakout`. -/
  priceRange : Except Err PriceRange
  /-- The news MCP tool envelope consumed by `analyze_catalyst_strength`. -/
  news : NewsEnvelope
  /-- The `get_short_interest` tool envelope (consumed by the short-squeeze
  and pump-potential detectors; the adapter is deterministic, so both calls
  see the same envelope). -/
  shortInterest : ShortInterestEnvelope
  /-- The `get_fundamentals` tool envelope consumed by the pump-potential
  detector. -/
  fundamentals : FundamentalsEnvelope
  /-- `fundamental_analyzer.analyze_fundamentals` (total: awaits only
  `call_tool`). -/
  fundamental : FundAnalysis
  /-- `dilution_checker.check_dilution_risk` (total: both of its awaits go
  through `call_tool`, and its only `try` swallows its exception). -/
  dilution : DilutionRisk

/-- A factor string such as `f"Volume spike: {multiplier:.2f}x average"`
(line 228).  The two-decimal float formatting is abstracted to `toString` of
the rational; no claim depends on the rendering. -/
def volumeSpikeFactor (multiplier : ℚ) : String :=
  "Volume spike: " ++ toString multiplier ++ "x average"

/-- Lines 218-235 of `_calculate_volume_technical_score`: the volume-spike
points, their factors, and the exceptional-volume flag.  Line 219 tests
`if current_volume:`, so both `None` and `0` skip the whole block. -/
def volumePoints (stats : Except Err VolumeStats) (history : Except Err (List ℕ))
    (ticker : String) (current_volume : Option ℕ) :
    Except Err (ℚ × List String × Bool) :=
  if current_volume.getD 0 ≠ 0 then do
    let volume_spike ← detect_volume_spike stats history ticker (current_volume.getD 0)
    let spikePart : ℚ × List String × Bool :=
      if volume_spike.has_spike then
        let multiplier := volume_spike.multiplier
        (pymin (multiplier / volume_spike_multiplier) 1 * 40,
         [volumeSpikeFactor multiplier], decide (multiplier > 5))
      else (0, [], false)
    let sustainedPart : ℚ × List String :=
      if volume_spike.is_sustained.getD false then (20, ["Sustained volume"])
      else (0, [])
    pure (spikePart.1 + sustainedPart.1, spikePart.2.1 ++ sustainedPart.2,
          spikePart.2.2)
  else
    pure ((0 : ℚ), ([] : List String), false)

/-- Lines 241-257 of `_calculate_volume_technical_score`: the points and
factors accumulated from the four technical signals. -/
def techPoints (signals : Signals) : ℚ × List String :=
  (if signals.bullish_crossover then ((15 : ℚ), ["Bullish SMA crossover"]) else (0, [])) |> fun p =>
  (if signals.macd_bullish then (p.1 + 10, p.2 ++ ["MACD bullish"]) else p) |> fun p =>
  (if signals.price_above_sma then (p.1 + 10, p.2 ++ ["Price above SMA"]) else p) |> fun p =>
  (if signals.rsi_oversold then (p.1 + 5, p.2 ++ ["RSI oversold (potential bounce)"]) else p)

/-- `swing_score_calculator.py` lines 200-269:
`_calculate_volume_technical_score`. -/
def calc_volume_technical_score (b : Behavior) (ticker : String)
    (current_volume : Option ℕ) : Except Err VolumeTechScore := do
  -- lines 218-235: volume analysis
  let volPart ← volumePoints b.volumeStats b.sustainedHistory ticker current_volume
  let (vol_score, vol_factors, exceptional_volume) := volPart
  -- lines 237-263: technical indicators
  let closes ← b.priceHistory
  match calculate_all_indicators closes with
  | .insufficient =>
      -- `"error" in technical_data`: the whole block is skipped
      return { score := pymin vol_score 100, factors := vol_factors,
               exceptional_volume := exceptional_volume }
  | .ok signals => do
      let tech := techPoints signals
      -- lines 259-263: breakout check
      let breakout ← detect_breakout b.priceRange b.currentPrice
      let breakoutPart : ℚ × List String :=
        if breakout.has_breakout then (15, ["Price breakout detected"]) else (0, [])
      return { score := pymin (vol_score + tech.1 + breakoutPart.1) 100,
               factors := vol_factors ++ tech.2 ++ breakoutPart.2,
               exceptional_volume := exceptional_volume }

/-- `swing_score_calculator.py` lines 271-296: `_calculate_catalyst_score`. -/
def calc_catalyst_score (news : NewsEnvelope) : CatalystScore :=
  let catalyst_analysis := analyze_catalyst_strength news
  let catalysts := catalyst_analysis.catalysts
  -- lines 286-289: strong sentiment from the mean article sentiment
  let strong_sentiment :=
    if catalysts.isEmpty then false
    else decide ((catalysts.map (·.sentiment_score)).sum / (catalysts.length : ℚ) > 7/10)
  { score := catalyst_analysis.catalyst_score, catalysts := catalysts,
    strongest_catalyst := catalyst_analysis.strongest_catalyst,
    strong_sentiment := strong_sentiment }

/-- `swing_score_calculator.py` lines 298-315: `_calculate_short_squeeze_score`. -/
def calc_short_squeeze_score (a : SqueezeAnalysis) : ShortSqueezeScore :=
  { score := a.score, has_potential := a.has_squeeze_potential, factors := a.factors }

/-- `swing_score_calculator.py` lines 317-333: `_calculate_fundamental_score`. -/
def calc_fundamental_score (a : FundAnalysis) : FundamentalScore :=
  { score := a.score, passes_filters := a.passes_filters,
    factors := a.factors, risk_factors := a.risk_factors }

/-- `swing_score_calculator.py` lines 95-198: the part of `calculate_score`
after the volume substitution — the six sub-computations (in source order,
so errors surface in the same order as in Python) followed by the pure
combination. -/
def scorePipeline (b : Behavior) (ticker : String)
    (current_volume : Option ℕ) : Except Err ScoreResult := do
  let volume_score ← calc_volume_technical_score b ticker current_volume
  let catalyst_score := calc_catalyst_score b.news
  -- lines 101-102: the short-squeeze adapter (can raise, see above)
  let squeeze_analysis ← detect_short_squeeze_potential b.shortInterest
    b.volumeStats b.sustainedHistory ticker
  let short_squeeze_score := calc_short_squeeze_score squeeze_analysis
  let fundamental_score := calc_fundamental_score b.fundamental
  -- lines 107-110: the pump-potential adapter receives the (substituted)
  -- current volume and can raise through its volume-spike check
  let pump_analysis ← detect_pump_potential b.shortInterest b.fundamentals
    b.volumeStats b.sustainedHistory b.currentPrice b.priceRange b.priceHistory
    ticker current_volume
  let pump_potential : PumpPotential :=
    { score := pump_analysis.score,
      has_pump_potential := pump_analysis.has_pump_potential }
  let dilution_risk := b.dilution
  return combineScores ticker volume_score catalyst_score short_squeeze_score
    fundamental_score pump_potential dilution_risk

/-- `swing_score_calculator.py` lines 71-198: `calculate_score`.  The body
contains no `try`/`except`: any exception raised by a collaborator call
propagates to the caller. -/
def calculate_score (b : Behavior) (ticker : String)
    (current_volume : Option ℕ) : Except Err ScoreResult := do
  let ticker := normalize_ticker ticker
  -- lines 90-93: volume substitution from the latest known bar
  let current_volume ← (match current_volume with
    | some v => pure (some v)
    | none => do
        let current_price_data ← b.currentPrice
        match current_price_data with
        | some bar => pure (some bar.volume)
        | none => pure (none : Option ℕ))
  scorePipeline b ticker current_volume

/-! ## Alert manager (`alerts/alert_manager.py`)

Defaults from lines 19-22: `deduplication_window_minutes` 60,
`max_alerts_per_hour` 10, `cooldown_period_minutes` 30.

Time is embedded as integer minutes.  The hour-bucket strings produced by
`strftime('%Y-%m-%d-%H')` are carried alongside in a `Clock` record: for
that fixed format, chronological order of buckets coincides with
lexicographic order of the bucket strings, and Python compares `str` values
lexicographically by code point exactly as `String.lt` does. -/

def deduplication_window_minutes : ℤ := 60
def max_alerts_per_hour : ℕ := 10
def cooldown_period_minutes : ℤ := 30

/-- A persisted alert row, as consumed by the dedup/rate checks. -/
structure DbAlert where
  ticker : String
  created_at : ℤ
deriving DecidableEq, Repr

/-- One instant of `datetime.now()`: the minute timestamp, its hour bucket
`now.strftime('%Y-%m-%d-%H')`, and the bucket of `now - deduplication
window` used by `_track_alert`'s prune (line 257). -/
structure Clock where
  now : ℤ
  nowBucket : String
  cutoffBucket : String
deriving DecidableEq, Repr

/-- `sql_client.get_recent_alerts(limit, since)` on a database state kept
newest-first: `WHERE created_at >= since ORDER BY created_at DESC LIMIT
limit`. -/
def get_recent_alerts (db : List DbAlert) (since : ℤ) (limit : ℕ) : List DbAlert :=
  (db.filter fun a => decide (since ≤ a.created_at)).take limit

/-- `alert_manager.py` lines 100-127: `_is_duplicate`.  The in-memory set is
embedded as a list of keys (membership and size are all the code uses). -/
def is_duplicate (mem : List String) (db : List DbAlert) (clock : Clock)
    (ticker : String) : Bool :=
  let alert_key := ticker ++ ":" ++ clock.nowBucket
  if alert_key ∈ mem then true
  else
    -- lines 115-125: database check over the last dedup window
    let recent := get_recent_alerts db (clock.now - deduplication_window_minutes) 100
    recent.any fun alert =>
      alert.ticker = ticker &&
      decide (clock.now - alert.created_at < deduplication_window_minutes)

/-- `alert_manager.py` lines 129-157: `_is_rate_limited`. -/
def is_rate_limited (db : List DbAlert) (clock : Clock) (ticker : String) : Bool :=
  -- lines 139-142: alerts for this ticker in the trailing hour
  let recent := get_recent_alerts db (clock.now - 60) 1000
  let ticker_alerts := recent.filter fun a => a.ticker = ticker
  if ticker_alerts.length ≥ max_alerts_per_hour then true
  else
    -- lines 147-155: cooldown against the most recent alert
    match ticker_alerts.head? with
    | some last_alert => decide (clock.now - last_alert.created_at < cooldown_period_minutes)
    | none => false

/-- `alert_manager.py` lines 245-258: `_track_alert`.  The key is the full
`f"{ticker}:{bucket}"` string; the prune (lines 255-258) keeps exactly the
keys `k` with `k > cutoff`, where `cutoff` is the *bare* bucket string of
`now - deduplication_window`. -/
def track_alert (mem : List String) (ticker : String) (clock : Clock) : List String :=
  let alert_key := ticker ++ ":" ++ clock.nowBucket
  let mem := if alert_key ∈ mem then mem else alert_key :: mem
  if mem.length > 1000 then mem.filter (fun k => clock.cutoffBucket < k) else mem

/-- An alert record as built by `_create_alert` (lines 187-195).  The
human-readable message rendering (`_format_alert_message`) is abstracted to
a placeholder containing the ticker; no claim depends on the rendering. -/
structure Alert where
  id : ℕ
  ticker : String
  score : ℚ
  alert_type : String
  message : String
  metadata : ScoreResult
deriving DecidableEq, Repr

/-- Abstraction of `_format_alert_message` (lines 201-243). -/
def format_alert_message (ticker : String) (_score_result : ScoreResult) : String :=
  "Swing Play Alert: " ++ ticker

/-- The external collaborators of one `check_and_create_alert` call: the
scoring pipeline's behaviour and the outcome of `sql_client.insert_alert`
(which can raise). -/
structure AlertBehavior where
  scoring : Behavior
  insert : Except Err ℕ

/-- `alert_manager.py` lines 39-83: `check_and_create_alert`, sequentially.
Returns the alert (or `none`) together with the in-memory dedup set and the
database state after the call.  The `try` on lines 66-83 wraps the scoring
call, alert creation and tracking: every exception raised there is caught
and turned into `None` with no state change. -/
def check_and_create_alert (ab : AlertBehavior) (mem : List String)
    (db : List DbAlert) (clock : Clock) (ticker : String)
    (current_volume : Option ℕ) : Option Alert × List String × List DbAlert :=
  let ticker := normalize_ticker ticker
  if is_duplicate mem db clock ticker then (none, mem, db)
  else if is_rate_limited db clock ticker then (none, mem, db)
  else
    match calculate_score ab.scoring ticker current_volume with
    | .error _ => (none, mem, db)
    | .ok score_result =>
      if !score_result.qualifies then (none, mem, db)
      else
        match ab.insert with
        | .error _ => (none, mem, db)
        | .ok alert_id =>
          let alert : Alert :=
            { id := alert_id, ticker := ticker, score := score_result.total_score,
              alert_type := "swing_play_candidate",
              message := format_alert_message ticker score_result,
              metadata := score_result }
          (some alert, track_alert mem ticker clock,
           { ticker := ticker, created_at := clock.now } :: db)

/-! ### Two concurrent `check_and_create_alert` calls

`check_and_create_alert` suspends at each database/scoring await:
`_is_duplicate` awaits `get_recent_alerts`, `_is_rate_limited` awaits
`get_recent_alerts`, `calculate_score` awaits its collaborators, and
`_create_alert` awaits `insert_alert`; `_track_alert` then runs
synchronously.  Two concurrent calls for the same ticker therefore
interleave at these points.  The model below is an under-approximation:
each task step is a block of code between awaits run without interruption,
so every schedule of the model is realizable by the event loop. -/

/-- Program counter of one in-flight `check_and_create_alert` task. -/
inductive TaskPc
  | start          -- about to run the dedup check
  | dedupOk        -- dedup passed, about to run the rate-limit check
  | rateOk         -- both checks passed, about to score
  | scored         -- scored and qualified, about to persist and track
  | done (alerted : Bool)
deriving DecidableEq, Repr

/-- Shared state plus the two tasks' program counters. -/
structure ConcState where
  mem : List String
  db : List DbAlert
  pcA : TaskPc
  pcB : TaskPc
deriving DecidableEq, Repr

/-- One step of one task, given the (deterministic) outcomes of its scoring
call and insert.  Mirrors `check_and_create_alert` block by block. -/
def alertTaskStep (score : Except Err ScoreResult) (insert : Except Err ℕ)
    (clock : Clock) (ticker : String) (mem : List String) (db : List DbAlert) :
    TaskPc → List String × List DbAlert × TaskPc
  | .start =>
      if is_duplicate mem db clock ticker then (mem, db, .done false)
      else (mem, db, .dedupOk)
  | .dedupOk =>
      if is_rate_limited db clock ticker then (mem, db, .done false)
      else (mem, db, .rateOk)
  | .rateOk =>
      match score with
      | .error _ => (mem, db, .done false)
      | .ok r => if !r.qualifies then (mem, db, .done false) else (mem, db, .scored)
  | .scored =>
      match insert with
      | .error _ => (mem, db, .done false)
      | .ok _ =>
          (track_alert mem ticker clock,
           { ticker := ticker, created_at := clock.now } :: db, .done true)
  | .done b => (mem, db, .done b)

/-- Run the task selected by the scheduler (`true` = task A). -/
def concStep (score : Except Err ScoreResult) (insert : Except Err ℕ)
    (clock : Clock) (ticker : String) (σ : ConcState) (who : Bool) : ConcState :=
  if who then
    let (mem, db, pc) := alertTaskStep score insert clock ticker σ.mem σ.db σ.pcA
    { σ with mem := mem, db := db, pcA := pc }
  else
    let (mem, db, pc) := alertTaskStep score insert clock ticker σ.mem σ.db σ.pcB
    { σ with mem := mem, db := db, pcB := pc }

/-- Run a whole schedule (list of scheduler choices). -/
def runConc (score : Except Err ScoreResult) (insert : Except Err ℕ)
    (clock : Clock) (ticker : String) (σ : ConcState) (sched : List Bool) : ConcState :=
  sched.foldl (concStep score insert clock ticker) σ

/-! ## WebSocket listen loop (`ingestion/websocket_handler.py` lines 172-234)

The loop is embedded as a transition system.  One event is the outcome of
the network operation the loop is blocked on: the connect+subscribe attempt
when there is no connection handle, or the `recv` when there is one.  The
`reconnect_backoff` value in the state is the delay the *next* failure will
sleep; each failure sleeps the current value and then doubles it with the
120-second ceiling, and a successful connect+subscribe resets it to 5
(line 183). -/

/-- `reconnect_backoff = 5.0` (line 174). -/
def initial_backoff : ℚ := 5
/-- `max_backoff = 120.0` (line 175). -/
def max_backoff : ℚ := 120

structure ListenState where
  running : Bool
  connected : Bool
  backoff : ℚ
deriving DecidableEq, Repr

inductive ListenEvent
  /-- connect and subscribe both succeed (lines 179-183). -/
  | connectOk
  /-- `ConnectionClosed` during connect/subscribe — e.g. the upstream closes
  with code 1000 immediately after a wildcard `A.*` subscribe (lines
  184-194). -/
  | connectClosed
  /-- any other exception during connect/subscribe (lines 195-199). -/
  | connectFail
  /-- a message is received and processed (lines 204-213); handler errors
  are swallowed inside `_process_message`. -/
  | recvMessage
  /-- `recv` times out after 30s and a heartbeat is sent (lines 214-216). -/
  | recvTimeout
  /-- `ConnectionClosed` while listening (lines 217-226). -/
  | recvClosed
  /-- any other error while processing (lines 227-229): `continue`. -/
  | recvError
deriving DecidableEq, Repr

/-- The state on entry to `listen()`: `reconnect_backoff` is initialised to
5 (line 174) and `running` was set by `connect()`.  The connection handle
may or may not exist on entry; we take the disconnected entry state — the
trace-bound theorem depends only on the backoff, and the per-step theorems
quantify over arbitrary states. -/
def listenInit : ListenState := { running := true, connected := false, backoff := 5 }

/-- One iteration of the `while self.running` loop of `listen`. -/
def listenStep (s : ListenState) (e : ListenEvent) : ListenState :=
  if s.running = false then s
  else if s.connected = false then
    match e with
    | .connectOk =>
        -- line 183: reset after successful connect+subscribe
        { s with connected := true, backoff := 5 }
    | .connectClosed =>
        -- lines 184-194: log, sleep `backoff`, then double with ceiling
        { s with backoff := pymin (s.backoff * 2) max_backoff }
    | .connectFail =>
        -- lines 195-199
        { s with backoff := pymin (s.backoff * 2) max_backoff }
    | _ => s
  else
    match e with
    | .recvClosed =>
        -- lines 217-226: clear the handle, sleep `backoff`, double, break
        { s with connected := false, backoff := pymin (s.backoff * 2) max_backoff }
    | .recvMessage => s
    | .recvTimeout => s
    | .recvError => s
    | _ => s

/-! # Theorems -/

/-! ## C1: the qualification gate -/

/-- **C1.**  For every scoring invocation, the result qualifies for an alert
iff final score ≥ 75, volume_technical ≥ 20, catalyst ≥ 25, fundamental ≥ 12
and the dilution-risk flag is false, simultaneously; in particular a result
with total score 80 but volume_technical 15 does not qualify. -/
theorem qualification_gate_characterization (ticker : String)
    (vs : VolumeTechScore) (cs : CatalystScore) (ss : ShortSqueezeScore)
    (fs : FundamentalScore) (pp : PumpPotential) (dr : DilutionRisk) :
    ((combineScores ticker vs cs ss fs pp dr).qualifies = true ↔
      ((combineScores ticker vs cs ss fs pp dr).total_score ≥ 75 ∧
       vs.score ≥ 20 ∧ cs.score ≥ 25 ∧ fs.score ≥ 12 ∧
       dr.has_dilution_risk = false)) ∧
    ((combineScores ticker vs cs ss fs pp dr).total_score = 80 → vs.score = 15 →
      (combineScores ticker vs cs ss fs pp dr).qualifies = false) := by
  have key : (combineScores ticker vs cs ss fs pp dr).qualifies = true ↔
      ((combineScores ticker vs cs ss fs pp dr).total_score ≥ 75 ∧
       vs.score ≥ 20 ∧ cs.score ≥ 25 ∧ fs.score ≥ 12 ∧
       dr.has_dilution_risk = false) := by
    simp only [combineScores, min_total_score, min_volume_technical_score,
      min_catalyst_score, min_fundamental_score, Bool.and_eq_true,
      decide_eq_true_eq, Bool.not_eq_true']
    tauto
  refine ⟨key, fun h80 h15 => ?_⟩
  by_contra hq
  rw [Bool.not_eq_false] at hq
  have h20 := (key.mp hq).2.1
  rw [h15] at h20
  norm_num at h20

/-- Concrete qualifying-threshold inputs for the C1 witness: volume_technical
15, catalyst 100, short squeeze 100, fundamental 87.5, pump-potential bonus
8, so the clamped final score is exactly 80. -/
def vsGate : VolumeTechScore := { score := 15, factors := [], exceptional_volume := false }
def csGate : CatalystScore :=
  { score := 100, catalysts := [], strongest_catalyst := none, strong_sentiment := false }
def ssGate : ShortSqueezeScore := { score := 100, has_potential := true, factors := [] }
def fsGate : FundamentalScore :=
  { score := 175/2, passes_filters := true, factors := [], risk_factors := [] }
def ppGate : PumpPotential := { score := 80, has_pump_potential := true }
def drGate : DilutionRisk :=
  { has_dilution_risk := false, has_recent_dilution := false, has_reverse_split := false }

/-- Witness for C1: at the concrete inputs the total score is exactly 80 while
volume_technical is 15, and the gate rejects. -/
theorem qualification_gate_characterization_witness :
    (combineScores "AAPL" vsGate csGate ssGate fsGate ppGate drGate).total_score = 80 ∧
    (combineScores "AAPL" vsGate csGate ssGate fsGate ppGate drGate).qualifies = false := by
  refine ⟨by with_unfolding_all decide, ?_⟩
  exact (qualification_gate_characterization "AAPL" vsGate csGate ssGate fsGate ppGate
    drGate).2 (by with_unfolding_all decide) (by with_unfolding_all decide)

/-! ## C2: the total-score formula -/

/-- **C2.**  For every scoring invocation, the final total score equals
`clamp(vt*0.30 + cat*0.35 + ss*0.15 + fund*0.20 − penalties + bonuses, 0,
100)` with penalties the magnitude-summed triggered entries (15, 20, 10) and
bonuses the summed triggered entries (5, 3, 3, 8). -/
theorem total_score_is_clamped_weighted_sum (ticker : String)
    (vs : VolumeTechScore) (cs : CatalystScore) (ss : ShortSqueezeScore)
    (fs : FundamentalScore) (pp : PumpPotential) (dr : DilutionRisk) :
    (combineScores ticker vs cs ss fs pp dr).total_score =
      max 0 (min 100 (vs.score * (30/100) + cs.score * (35/100) +
        ss.score * (15/100) + fs.score * (20/100)
        - specPenalties dr fs + specBonuses vs cs pp)) := by
  have hp : penaltiesTotal dr fs = specPenalties dr fs := by
    unfold penaltiesTotal specPenalties
    rcases hrd : dr.has_recent_dilution <;> rcases hrs : dr.has_reverse_split <;>
      rcases hpf : fs.passes_filters <;>
      norm_num [penalty_recent_dilution, penalty_upcoming_rs, penalty_negative_cash_flow]
  have hb : bonusesTotal vs cs pp = specBonuses vs cs pp := by
    unfold bonusesTotal specBonuses
    norm_num [bonus_exceptional_volume, bonus_multiple_catalysts,
      bonus_strong_sentiment, bonus_pump_potential]
  show pymax 0 (pymin 100 _) = _
  rw [← hp, ← hb, pymax_eq, pymin_eq]
  norm_num [volume_technical_weight, catalyst_weight, short_squeeze_weight,
    fundamental_weight]

/-! ## C4: RSI when the smoothed average loss is zero -/

/-- **C4** (claim: RSI is 100 whenever the smoothed average loss is 0).
Evaluating `_calculate_rsi` on a strictly rising 15-close series — so that
every delta is a gain and the smoothed average loss is exactly 0 at the one
exposed point — yields RSI `0`, not `100`: `np.where(avg_losses != 0,
avg_gains/avg_losses, 0)` forces `rs = 0` there, and `100 - 100/(1+0) = 0`.
The code thus reports the most bullish possible series as maximally oversold
(0 < 30 triggers the `rsi_oversold` signal), contradicting the convention
the spec states. -/
theorem rsi_zero_avg_loss_evaluates_to_zero :
    rsiAvgLosses 14 [1, 2, 3, 4, 5, 6, 7, 8, 9, 10, 11, 12, 13, 14, 15] = [0] ∧
    calculate_rsi 14 [1, 2, 3, 4, 5, 6, 7, 8, 9, 10, 11, 12, 13, 14, 15] = [0] := by
  with_unfolding_all decide

/-! ## C7: volume-spike detection with a zero baseline -/

/-- **C7.**  For every ticker, current volume and sustained-check behaviour,
when the historical average volume is 0, `detect_volume_spike` returns
`has_spike = false` with multiplier exactly 0 and the explicit
insufficient-data reason.  The returned equality also shows totality on this
path: no division is attempted (the branch returns before `safe_divide`), so
no division error or NaN can arise. -/
theorem volume_spike_zero_baseline (history : Except Err (List ℕ))
    (ticker : String) (current_volume : ℕ) (st : VolumeStats)
    (h : st.average_volume = 0) :
    detect_volume_spike (.ok st) history ticker current_volume =
      .ok { ticker := normalize_ticker ticker, has_spike := false,
            current_volume := current_volume, average_volume := 0,
            median_volume := none, multiplier := 0, is_sustained := none,
            reason := some "Insufficient historical data" } := by
  simp [detect_volume_spike, ok_bind, pure_eq_ok, h]

/-- Witness for C7 at a zero-average statistics record and volume 500000. -/
theorem volume_spike_zero_baseline_witness :
    detect_volume_spike (.ok { average_volume := 0, median_volume := 0 })
        (.ok []) "aapl" 500000 =
      .ok { ticker := normalize_ticker "aapl", has_spike := false,
            current_volume := 500000, average_volume := 0,
            median_volume := none, multiplier := 0, is_sustained := none,
            reason := some "Insufficient historical data" } :=
  volume_spike_zero_baseline (.ok []) "aapl" 500000
    { average_volume := 0, median_volume := 0 } rfl

/-! ## C3: failure semantics of `calculate_score` -/

/-- A behaviour in which the volume-statistics database query raises
(`asyncpg` connection failure inside `ts_client.get_volume_statistics`);
everything else is healthy, and the short-interest envelope is successful
with an empty data dict, so the short-squeeze adapter proceeds to its
volume-spike check. -/
def bDbDown : Behavior :=
  { currentPrice := .ok none
    volumeStats := .error "database connection lost"
    sustainedHistory := .ok []
    priceHistory := .ok []
    priceRange := .ok { high := none, low := none, close := none }
    news := { success := false, articles := [] }
    shortInterest := { success := true, error := none, data := emptyShortInterestData }
    fundamentals := { success := true,
                      data := { error := none, float_shares := none, market_cap := none } }
    fundamental := { score := 0, passes_filters := false, factors := [], risk_factors := [] }
    dilution := { has_dilution_risk := false, has_recent_dilution := false,
                  has_reverse_split := false } }

/-- **C3 counterexample.**  A raising volume-statistics query propagates out
of `calculate_score` unhandled (the method body contains no `try`/`except`)
on two distinct paths: with a present current volume, through
`_calculate_volume_technical_score`'s spike check; and with the volume
missing (so the volume path never queries the database), through the
short-squeeze adapter's own volume-spike await
(`short_squeeze_detector.py` line 109).  Neither call returns a degraded
`ScoreResult`, contradicting the claim that an exception never propagates
to the caller except for ticker validation. -/
theorem calculate_score_propagates_db_exception :
    calculate_score bDbDown "AAPL" (some 1000) = .error "database connection lost" ∧
    calculate_score bDbDown "AAPL" none = .error "database connection lost" := by
  constructor
  · with_unfolding_all rfl
  · with_unfolding_all rfl

/-- If the volume-statistics query succeeds, `detect_volume_spike` returns a
result (both of its branches return). -/
theorem detect_volume_spike_ok (st : VolumeStats) (history : Except Err (List ℕ))
    (t : String) (cv : ℕ) :
    ∃ sr, detect_volume_spike (.ok st) history t cv = .ok sr := by
  unfold detect_volume_spike
  rw [ok_bind]
  dsimp only
  split
  · exact ⟨_, rfl⟩
  · exact ⟨_, rfl⟩

/-- If both of its queries succeed, `detect_breakout` returns a result. -/
theorem detect_breakout_ok (pr : PriceRange) (p : Option Bar) :
    ∃ br, detect_breakout (.ok pr) (.ok p) = .ok br := by
  unfold detect_breakout
  rw [ok_bind, ok_bind]
  rcases p with _ | bar
  · exact ⟨_, rfl⟩
  · simp only
    split
    · exact ⟨_, rfl⟩
    · exact ⟨_, rfl⟩

/-- A bind of two computations that each return is a computation that
returns. -/
theorem bind_ok_of_ok {α β : Type} {m : Except Err α} (h : ∃ a, m = .ok a)
    (f : α → Except Err β) (hf : ∀ a, ∃ b, f a = .ok b) :
    ∃ b, (m >>= f) = .ok b := by
  obtain ⟨a, ha⟩ := h
  rw [ha, ok_bind]
  exact hf a

/-- If the volume-statistics query succeeds, `volumePoints` returns. -/
theorem volumePoints_ok (st : VolumeStats) (history : Except Err (List ℕ))
    (t : String) (cv : Option ℕ) :
    ∃ z, volumePoints (.ok st) history t cv = .ok z := by
  unfold volumePoints
  split
  · obtain ⟨sr, hsr⟩ := detect_volume_spike_ok st history t (cv.getD 0)
    rw [hsr, ok_bind]
    exact ⟨_, rfl⟩
  · exact ⟨_, rfl⟩

/-- If the volume-statistics query succeeds,
`detect_short_squeeze_potential` returns (its only raising await is the
volume-spike check on line 109). -/
theorem detect_short_squeeze_potential_ok (env : ShortInterestEnvelope)
    (st : VolumeStats) (history : Except Err (List ℕ)) (t : String) :
    ∃ r, detect_short_squeeze_potential env (.ok st) history t = .ok r := by
  unfold detect_short_squeeze_potential
  dsimp only
  split
  · exact ⟨_, rfl⟩
  · split
    · exact ⟨_, rfl⟩
    · obtain ⟨sr, hsr⟩ := detect_volume_spike_ok st history (normalize_ticker t)
        (env.data.average_volume.getD 0)
      rw [hsr, ok_bind]
      exact ⟨_, rfl⟩

/-- When the short-interest envelope reports failure,
`detect_short_squeeze_potential` degrades before its raising await, for any
behaviour of the storage layer. -/
theorem detect_short_squeeze_envelope_failure (env : ShortInterestEnvelope)
    (stats : Except Err VolumeStats) (history : Except Err (List ℕ))
    (t : String) (h : env.success = false) :
    detect_short_squeeze_potential env stats history t =
      .ok { score := 0, has_squeeze_potential := false, factors := [],
            error := env.error } := by
  simp [detect_short_squeeze_potential, pure_eq_ok, h]

/-- If the volume-statistics query succeeds, the pump detector's
volume-spike block returns. -/
theorem pumpVolumePoints_ok (st : VolumeStats) (history : Except Err (List ℕ))
    (t : String) (cv : Option ℕ) :
    ∃ z, pumpVolumePoints (.ok st) history t cv = .ok z := by
  unfold pumpVolumePoints
  split
  · obtain ⟨sr, hsr⟩ := detect_volume_spike_ok st history t (cv.getD 0)
    rw [hsr, ok_bind]
    dsimp only
    split
    · split
      · exact ⟨_, rfl⟩
      · exact ⟨_, rfl⟩
    · exact ⟨_, rfl⟩
  · exact ⟨_, rfl⟩

/-- If the volume-statistics query succeeds, `detect_pump_potential`
returns (its technical `try` swallows everything else). -/
theorem detect_pump_potential_ok (se : ShortInterestEnvelope)
    (fe : FundamentalsEnvelope) (st : VolumeStats)
    (history : Except Err (List ℕ)) (cp : Except Err (Option Bar))
    (range : Except Err PriceRange) (ph : Except Err (List ℚ))
    (t : String) (cv : Option ℕ) :
    ∃ r, detect_pump_potential se fe (.ok st) history cp range ph t cv = .ok r := by
  unfold detect_pump_potential
  dsimp only
  set sd := if se.success = true then se.data else emptyShortInterestData
  set fd := if fe.success = true then fe.data
    else ({ error := none, float_shares := none, market_cap := none } : FundamentalsData)
  split
  · exact ⟨_, rfl⟩
  · exact bind_ok_of_ok (pumpVolumePoints_ok st history (normalize_ticker t) _) _
      (fun z => ⟨_, rfl⟩)

/-- If every storage query of the volume/technical path succeeds,
`_calculate_volume_technical_score` returns a sub-score. -/
theorem calc_volume_technical_score_ok (st : VolumeStats) (hs : List ℕ)
    (ph : List ℚ) (pr : PriceRange) (p : Option Bar) (news : NewsEnvelope)
    (se : ShortInterestEnvelope) (fe : FundamentalsEnvelope)
    (fu : FundAnalysis) (dil : DilutionRisk) (t : String) (cv : Option ℕ) :
    ∃ vs, calc_volume_technical_score
        ⟨.ok p, .ok st, .ok hs, .ok ph, .ok pr, news, se, fe, fu, dil⟩ t cv = .ok vs := by
  unfold calc_volume_technical_score
  obtain ⟨z, hz⟩ := volumePoints_ok st (.ok hs) t cv
  obtain ⟨s1, f1, e1⟩ := z
  rw [hz, ok_bind]
  dsimp only
  rw [ok_bind]
  split
  · exact ⟨_, rfl⟩
  · obtain ⟨br, hbr⟩ := detect_breakout_ok pr p
    rw [hbr, ok_bind]
    exact ⟨_, rfl⟩

/-- When the news tool reports failure, `_calculate_catalyst_score` produces
the fully degraded catalyst sub-score. -/
theorem calc_catalyst_score_envelope_failure (news : NewsEnvelope)
    (h : news.success = false) :
    calc_catalyst_score news =
      { score := 0, catalysts := [], strongest_catalyst := none,
        strong_sentiment := false } := by
  simp [calc_catalyst_score, analyze_catalyst_strength, h]

/-- If every raising collaborator of a scoring call succeeds, the pipeline
after the volume substitution returns a complete result whose
volume_technical, catalyst and short-squeeze sub-scores are the ones the
respective sub-computations produced. -/
theorem scorePipeline_ok (p : Option Bar) (st : VolumeStats) (hs : List ℕ)
    (ph : List ℚ) (pr : PriceRange) (news : NewsEnvelope)
    (se : ShortInterestEnvelope) (fe : FundamentalsEnvelope)
    (fu : FundAnalysis) (dil : DilutionRisk) (t : String) (cv : Option ℕ) :
    ∃ r vs sq, scorePipeline
        ⟨.ok p, .ok st, .ok hs, .ok ph, .ok pr, news, se, fe, fu, dil⟩ t cv = .ok r ∧
      calc_volume_technical_score
        ⟨.ok p, .ok st, .ok hs, .ok ph, .ok pr, news, se, fe, fu, dil⟩ t cv = .ok vs ∧
      detect_short_squeeze_potential se (.ok st) (.ok hs) t = .ok sq ∧
      r.volume_technical = vs ∧ r.catalyst = calc_catalyst_score news ∧
      r.short_squeeze = calc_short_squeeze_score sq := by
  obtain ⟨vs, hvs⟩ := calc_volume_technical_score_ok st hs ph pr p news se fe fu dil t cv
  obtain ⟨sq, hsq⟩ := detect_short_squeeze_potential_ok se st (.ok hs) t
  obtain ⟨pa, hpa⟩ := detect_pump_potential_ok se fe st (.ok hs) (.ok p) (.ok pr) (.ok ph) t cv
  unfold scorePipeline
  rw [hvs, ok_bind]
  dsimp only
  rw [hsq, ok_bind]
  rw [hpa, ok_bind]
  exact ⟨_, vs, sq, rfl, rfl, rfl, rfl, rfl, rfl⟩

/-- **C3 (amended).**  When a sub-component adapter reports failure through
its tool-result envelope before reaching a raising await — the catalyst,
short-squeeze, fundamental and dilution adapters obtain their inputs from
the MCP servers' `call_tool`, which catches every exception and returns
`success=false` — the scorer degrades that sub-score to 0 (shown for the
catalyst adapter: score 0 and no catalysts; and for the short-squeeze
adapter: score 0) and still returns a complete `ScoreResult`; and whenever
every raising storage call succeeds, `calculate_score` returns a complete
result.  (An uncaught storage exception, by contrast, propagates out of
`calculate_score` — from the volume/technical path, or from inside the
short-squeeze and pump-potential adapters, whose volume-spike checks query
the volume statistics outside any `try`: see the counterexample.) -/
theorem calculate_score_ok_and_envelope_degradation
    (p : Option Bar) (st : VolumeStats) (hs : List ℕ) (ph : List ℚ)
    (pr : PriceRange) (news : NewsEnvelope) (se : ShortInterestEnvelope)
    (fe : FundamentalsEnvelope) (fu : FundAnalysis) (dil : DilutionRisk)
    (ticker : String) (v : Option ℕ) :
    ∃ r : ScoreResult,
      calculate_score ⟨.ok p, .ok st, .ok hs, .ok ph, .ok pr, news, se, fe, fu, dil⟩
        ticker v = .ok r ∧
      (news.success = false →
        r.catalyst = { score := 0, catalysts := [], strongest_catalyst := none,
                       strong_sentiment := false }) ∧
      (se.success = false →
        r.short_squeeze = { score := 0, has_potential := false, factors := [] }) := by
  have main : ∀ cv : Option ℕ, ∃ r : ScoreResult,
      scorePipeline ⟨.ok p, .ok st, .ok hs, .ok ph, .ok pr, news, se, fe, fu, dil⟩
        (normalize_ticker ticker) cv = .ok r ∧
      (news.success = false →
        r.catalyst = { score := 0, catalysts := [], strongest_catalyst := none,
                       strong_sentiment := false }) ∧
      (se.success = false →
        r.short_squeeze = { score := 0, has_potential := false, factors := [] }) := by
    intro cv
    obtain ⟨r, vs, sq, hr, -, hsq, -, hcat, hsqz⟩ :=
      scorePipeline_ok p st hs ph pr news se fe fu dil (normalize_ticker ticker) cv
    refine ⟨r, hr,
      fun hf => by rw [hcat, calc_catalyst_score_envelope_failure news hf],
      fun hf => ?_⟩
    rw [detect_short_squeeze_envelope_failure se (.ok st) (.ok hs)
      (normalize_ticker ticker) hf] at hsq
    obtain rfl := Except.ok.inj hsq
    rw [hsqz]
    rfl
  rcases v with _ | v
  · rcases p with _ | bar
    · exact main none
    · exact main (some bar.volume)
  · exact main (some v)

/-- A fully healthy storage layer with failing news and short-interest
tool envelopes. -/
def bNewsFail : Behavior :=
  { currentPrice := .ok none
    volumeStats := .ok { average_volume := 0, median_volume := 0 }
    sustainedHistory := .ok []
    priceHistory := .ok []
    priceRange := .ok { high := none, low := none, close := none }
    news := { success := false, articles := [] }
    shortInterest := { success := false, error := some "service unavailable",
                       data := emptyShortInterestData }
    fundamentals := { success := false,
                      data := { error := none, float_shares := none, market_cap := none } }
    fundamental := { score := 0, passes_filters := false, factors := [], risk_factors := [] }
    dilution := { has_dilution_risk := false, has_recent_dilution := false,
                  has_reverse_split := false } }

/-- Witness for C3 (amended) at `bNewsFail`. -/
theorem calculate_score_ok_and_envelope_degradation_witness :
    ∃ r : ScoreResult, calculate_score bNewsFail "AAPL" none = .ok r ∧
      r.catalyst = { score := 0, catalysts := [], strongest_catalyst := none,
                     strong_sentiment := false } ∧
      r.short_squeeze = { score := 0, has_potential := false, factors := [] } := by
  obtain ⟨r, hr, hcat, hsq⟩ := calculate_score_ok_and_envelope_degradation
    none { average_volume := 0, median_volume := 0 } [] []
    { high := none, low := none, close := none } { success := false, articles := [] }
    { success := false, error := some "service unavailable", data := emptyShortInterestData }
    { success := false, data := { error := none, float_shares := none, market_cap := none } }
    { score := 0, passes_filters := false, factors := [], risk_factors := [] }
    { has_dilution_risk := false, has_recent_dilution := false, has_reverse_split := false }
    "AAPL" none
  exact ⟨r, hr, hcat rfl, hsq rfl⟩

/-! ## C6: volume substitution and missing-volume behaviour -/

/-- Every factor string `techPoints` can emit. -/
theorem techPoints_factors_subset (s : Signals) :
    ∀ f ∈ (techPoints s).2,
      f ∈ ["Bullish SMA crossover", "MACD bullish", "Price above SMA",
           "RSI oversold (potential bounce)"] := by
  obtain ⟨a, b, c, d, e⟩ := s
  cases a <;> cases b <;> cases c <;> cases d <;> cases e <;> simp [techPoints]

/-- With no usable current volume, `_calculate_volume_technical_score`
still returns: the volume block is skipped (no exceptional flag, no volume
factors) and only technical-indicator and breakout points accrue. -/
theorem calc_volume_technical_score_no_volume (p : Option Bar)
    (st : VolumeStats) (hs : List ℕ) (ph : List ℚ) (pr : PriceRange)
    (news : NewsEnvelope) (se : ShortInterestEnvelope)
    (fe : FundamentalsEnvelope) (fu : FundAnalysis) (dil : DilutionRisk)
    (t : String) :
    ∃ vs, calc_volume_technical_score
        ⟨.ok p, .ok st, .ok hs, .ok ph, .ok pr, news, se, fe, fu, dil⟩ t none = .ok vs ∧
      vs.exceptional_volume = false ∧
      ∀ f ∈ vs.factors,
        f ∈ ["Bullish SMA crossover", "MACD bullish", "Price above SMA",
             "RSI oversold (potential bounce)", "Price breakout detected"] := by
  unfold calc_volume_technical_score
  rw [show volumePoints (Except.ok st) (Except.ok hs) t none
        = Except.ok ((0 : ℚ), ([] : List String), false) from rfl, ok_bind]
  dsimp only
  rw [ok_bind]
  split
  · exact ⟨_, rfl, rfl, by simp⟩
  case _ signals _ =>
    obtain ⟨br, hbr⟩ := detect_breakout_ok pr p
    rw [hbr, ok_bind]
    refine ⟨_, rfl, rfl, ?_⟩
    intro f hf
    have htech := techPoints_factors_subset signals
    simp only [List.nil_append, List.mem_append] at hf
    rcases hf with hf | hf
    · have := htech f hf
      simp only [List.mem_cons, List.not_mem_nil, or_false] at this ⊢
      tauto
    · split at hf <;> simp_all

/-- **C6 (amended).**  If `current_volume` is omitted, the latest known
volume is substituted — the call behaves exactly as if that volume had been
passed.  If the volume is still missing, the *volume_technical* computation
treats it like 0 (line 219 tests truthiness, so the spike/sustained
analysis is skipped with no exceptional flag and no volume factors, while
technical-indicator points still accrue — the sub-score need not be 0), and
when the remaining storage queries succeed the call still returns a
complete result rather than failing.  The call as a whole is *not*
equivalent to passing 0: the pump-potential detector substitutes its own
fallbacks (the short-interest average volume or the latest bar's volume)
for a missing volume, see `detect_pump_potential` lines 125-133. -/
theorem volume_substitution_policy (b : Behavior) (t : String) :
    (∀ bar : Bar, b.currentPrice = .ok (some bar) →
      calculate_score b t none = calculate_score b t (some bar.volume)) ∧
    (calc_volume_technical_score b t none = calc_volume_technical_score b t (some 0)) ∧
    (∀ st hs ph pr news se fe fu dil,
      b = ⟨.ok none, .ok st, .ok hs, .ok ph, .ok pr, news, se, fe, fu, dil⟩ →
      ∃ r, calculate_score b t none = .ok r ∧
        r.volume_technical.exceptional_volume = false ∧
        ∀ f ∈ r.volume_technical.factors,
          f ∈ ["Bullish SMA crossover", "MACD bullish", "Price above SMA",
               "RSI oversold (potential bounce)", "Price breakout detected"]) := by
  refine ⟨?_, ?_, ?_⟩
  · intro bar h
    unfold calculate_score
    rw [h]
    rfl
  · rfl
  · rintro st hs ph pr news se fe fu dil rfl
    obtain ⟨r, vs, sq, hr, hvs, -, hrv, -, -⟩ :=
      scorePipeline_ok none st hs ph pr news se fe fu dil (normalize_ticker t) none
    obtain ⟨vs', hvs', hex, hfac⟩ :=
      calc_volume_technical_score_no_volume none st hs ph pr news se fe fu dil
        (normalize_ticker t)
    rw [hvs] at hvs'
    obtain rfl : vs = vs' := Except.ok.inj hvs'
    exact ⟨r, hr, hrv ▸ hex, hrv ▸ hfac⟩

/-- A behaviour with no latest bar (the volume stays missing) and 50
constant closes, so the `rsi_oversold` signal fires (the RSI of a no-loss
series is computed as 0, see C4) while all volume analysis is skipped; the
short-interest envelope fails, so the squeeze and pump adapters never reach
their volume-spike checks. -/
def bNoVolume : Behavior :=
  { currentPrice := .ok none
    volumeStats := .ok { average_volume := 0, median_volume := 0 }
    sustainedHistory := .ok []
    priceHistory := .ok (List.replicate 50 10)
    priceRange := .ok { high := none, low := none, close := none }
    news := { success := false, articles := [] }
    shortInterest := { success := false, error := some "no data",
                       data := emptyShortInterestData }
    fundamentals := { success := false,
                      data := { error := none, float_shares := none, market_cap := none } }
    fundamental := { score := 0, passes_filters := false, factors := [], risk_factors := [] }
    dilution := { has_dilution_risk := false, has_recent_dilution := false,
                  has_reverse_split := false } }

set_option maxRecDepth 8000 in
/-- **C6 counterexample.**  With the volume still missing after substitution
(`get_current_price` returns no bar), the volume_technical sub-score is 5,
not 0: technical-indicator points still accrue, so the sub-score is not
"degraded to 0" as the claim states. -/
theorem missing_volume_not_degraded_to_zero :
    bNoVolume.currentPrice = .ok none ∧
    (calculate_score bNoVolume "AAPL" none).toOption.map
      (fun r => r.volume_technical.score) = some 5 :=
  ⟨rfl, by with_unfolding_all rfl⟩

/-- Witness for C6 (amended): the substitution equality, the
volume_technical-level missing/zero agreement, and the missing-volume
totality, at concrete behaviours. -/
theorem volume_substitution_policy_witness :
    (calculate_score { bNoVolume with currentPrice := .ok (some { close := 10, volume := 777 }) }
        "AAPL" none =
      calculate_score { bNoVolume with currentPrice := .ok (some { close := 10, volume := 777 }) }
        "AAPL" (some 777)) ∧
    (calc_volume_technical_score bNoVolume "AAPL" none =
      calc_volume_technical_score bNoVolume "AAPL" (some 0)) ∧
    ∃ r, calculate_score bNoVolume "AAPL" none = .ok r ∧
      r.volume_technical.exceptional_volume = false := by
  refine ⟨(volume_substitution_policy _ "AAPL").1 { close := 10, volume := 777 } rfl,
          (volume_substitution_policy bNoVolume "AAPL").2.1, ?_⟩
  obtain ⟨r, hr, hex, -⟩ :=
    (volume_substitution_policy bNoVolume "AAPL").2.2 _ _ _ _ _ _ _ _ _ rfl
  exact ⟨r, hr, hex⟩

/-! ## C5: pruning of the in-memory deduplication set -/

/-- A dedup key recorded years before the current hour bucket. -/
def staleKey : String := "AAPL:2020-01-01-00"

/-- An in-memory dedup set holding the stale key plus 1000 distinct fresh
keys, so that the next `_track_alert` exceeds the 1000-entry threshold and
runs the prune. -/
def filledMem : List String :=
  staleKey :: (List.range 1000).map (fun i => "T" ++ toString i ++ ":2025-06-01-10")

/-- The tracking instant: hour bucket `2025-06-01-10`, dedup-window cutoff
bucket `2025-06-01-09` (60 minutes earlier). -/
def pruneClock : Clock :=
  { now := 29148550, nowBucket := "2025-06-01-10", cutoffBucket := "2025-06-01-09" }

set_option maxRecDepth 8000 in
/-- **C5 (code-bug evaluation).**  The claim says that once the set exceeds
1,000 entries, every entry whose hour bucket is older than the dedup window
is discarded.  The prune compares the whole key `"TICKER:bucket"` with the
*bare* cutoff bucket string: since every uppercase letter sorts above every
digit, `"AAPL:2020-01-01-00" > "2025-06-01-09"` holds even though the key's
bucket `2020-01-01-00` is far older than the cutoff, so the stale entry
survives the prune (and the pruned set still exceeds 1,000 entries). -/
theorem track_alert_keeps_stale_entry :
    ("2020-01-01-00" : String) < "2025-06-01-09" ∧
    1000 < (track_alert filledMem "NEW" pruneClock).length ∧
    staleKey ∈ track_alert filledMem "NEW" pruneClock := by
  with_unfolding_all decide

/-! ## C9: reconnect backoff policy of the listen loop -/

/-- One `listen` iteration keeps the backoff within `[5, 120]`. -/
theorem listenStep_backoff_bounds (s : ListenState) (e : ListenEvent)
    (h5 : 5 ≤ s.backoff) (h120 : s.backoff ≤ 120) :
    5 ≤ (listenStep s e).backoff ∧ (listenStep s e).backoff ≤ 120 := by
  obtain ⟨run, conn, b⟩ := s
  simp only at h5 h120
  have hmin : 5 ≤ pymin (b * 2) max_backoff ∧ pymin (b * 2) max_backoff ≤ 120 := by
    unfold pymin max_backoff
    constructor <;> split <;> linarith
  cases run <;> cases conn <;> cases e <;>
    simp [listenStep] <;>
    first | exact ⟨h5, h120⟩ | exact hmin | norm_num

/-- The backoff stays within `[5, 120]` along every event trace. -/
theorem listen_trace_backoff_bounds (es : List ListenEvent) :
    ∀ s : ListenState, 5 ≤ s.backoff → s.backoff ≤ 120 →
      5 ≤ (es.foldl listenStep s).backoff ∧ (es.foldl listenStep s).backoff ≤ 120 := by
  induction es with
  | nil => exact fun s h5 h120 => ⟨h5, h120⟩
  | cons e es ih =>
      intro s h5 h120
      have h := listenStep_backoff_bounds s e h5 h120
      exact ih _ h.1 h.2

/-- **C9.**  The reconnect backoff starts at 5 seconds; along every event
trace it never leaves `[5, 120]`; a failed connect/subscribe attempt (or a
connection close while listening) sleeps the current backoff and doubles it
with the 120-second ceiling; a successful connect+subscribe cycle resets it
to 5; and a connection close immediately after a subscribe (e.g. close code
1000 after a wildcard subscribe) leaves the loop running and merely
schedules a reconnect — it is never fatal. -/
theorem listen_backoff_policy :
    listenInit.backoff = 5 ∧
    (∀ es : List ListenEvent,
      5 ≤ (es.foldl listenStep listenInit).backoff ∧
      (es.foldl listenStep listenInit).backoff ≤ 120) ∧
    (∀ s : ListenState, s.running = true → s.connected = false →
      listenStep s .connectOk = { s with connected := true, backoff := 5 }) ∧
    (∀ s : ListenState, s.running = true → s.connected = false →
      ∀ e, (e = ListenEvent.connectClosed ∨ e = ListenEvent.connectFail) →
        listenStep s e = { s with backoff := pymin (s.backoff * 2) 120 } ∧
        (listenStep s e).running = true ∧ (listenStep s e).connected = false) ∧
    (∀ s : ListenState, s.running = true → s.connected = true →
      listenStep s .recvClosed =
        { s with connected := false, backoff := pymin (s.backoff * 2) 120 } ∧
      (listenStep s .recvClosed).running = true) := by
  refine ⟨rfl, fun es => listen_trace_backoff_bounds es listenInit (by norm_num [listenInit])
    (by norm_num [listenInit]), ?_, ?_, ?_⟩
  · rintro ⟨run, conn, b⟩ hrun hconn
    simp only at hrun hconn
    subst hrun; subst hconn
    simp [listenStep]
  · rintro ⟨run, conn, b⟩ hrun hconn e he
    simp only at hrun hconn
    subst hrun; subst hconn
    rcases he with rfl | rfl <;> simp [listenStep, max_backoff]
  · rintro ⟨run, conn, b⟩ hrun hconn
    simp only at hrun hconn
    subst hrun; subst hconn
    simp [listenStep, max_backoff]

/-- Witness for C9 at concrete states: the first close after the initial
connect doubles 5 to 10; a connect failure at backoff 80 caps at 120; a
successful reconnect resets 80 to 5; a trace stays within bounds. -/
theorem listen_backoff_policy_witness :
    listenInit.backoff = 5 ∧
    listenStep { running := true, connected := false, backoff := 5 } .connectClosed =
      { running := true, connected := false, backoff := 10 } ∧
    listenStep { running := true, connected := false, backoff := 80 } .connectFail =
      { running := true, connected := false, backoff := 120 } ∧
    listenStep { running := true, connected := false, backoff := 80 } .connectOk =
      { running := true, connected := true, backoff := 5 } ∧
    listenStep { running := true, connected := true, backoff := 5 } .recvClosed =
      { running := true, connected := false, backoff := 10 } ∧
    5 ≤ (([.connectClosed, .connectFail, .connectOk] : List ListenEvent).foldl
          listenStep listenInit).backoff := by
  refine ⟨listen_backoff_policy.1, ?_, ?_, ?_, ?_, ?_⟩
  · rw [(listen_backoff_policy.2.2.2.1 { running := true, connected := false, backoff := 5 }
      rfl rfl ListenEvent.connectClosed (Or.inl rfl)).1]
    norm_num [pymin]
  · rw [(listen_backoff_policy.2.2.2.1 { running := true, connected := false, backoff := 80 }
      rfl rfl ListenEvent.connectFail (Or.inr rfl)).1]
    norm_num [pymin]
  · exact listen_backoff_policy.2.2.1 { running := true, connected := false, backoff := 80 }
      rfl rfl
  · rw [(listen_backoff_policy.2.2.2.2 { running := true, connected := true, backoff := 5 }
      rfl rfl).1]
    norm_num [pymin]
  · exact (listen_backoff_policy.2.1 [.connectClosed, .connectFail, .connectOk]).1

/-! ## C10: failed alert creation leaves the dedup state unchanged -/

/-- **C10.**  If the scoring call or the alert persistence raises inside
`check_and_create_alert`, the method returns `None` and neither the
in-memory dedup set nor the database changes; and whenever an alert is
returned, the scoring succeeded with a qualifying result, the insert
succeeded, and only then was the hour-bucket key recorded via
`_track_alert`. -/
theorem check_and_create_alert_failure_semantics (ab : AlertBehavior)
    (mem : List String) (db : List DbAlert) (clock : Clock) (t : String)
    (v : Option ℕ) :
    (∀ e, calculate_score ab.scoring (normalize_ticker t) v = .error e →
      check_and_create_alert ab mem db clock t v = (none, mem, db)) ∧
    (∀ e, ab.insert = .error e →
      check_and_create_alert ab mem db clock t v = (none, mem, db)) ∧
    (∀ a mem' db', check_and_create_alert ab mem db clock t v = (some a, mem', db') →
      (∃ r, calculate_score ab.scoring (normalize_ticker t) v = .ok r ∧
        r.qualifies = true) ∧
      (∃ i, ab.insert = .ok i) ∧
      mem' = track_alert mem (normalize_ticker t) clock ∧
      db' = { ticker := normalize_ticker t, created_at := clock.now } :: db) := by
  refine ⟨?_, ?_, ?_⟩
  · intro e he
    unfold check_and_create_alert
    dsimp only
    split
    · rfl
    · split
      · rfl
      · rw [he]
  · intro e he
    unfold check_and_create_alert
    dsimp only
    split
    · rfl
    · split
      · rfl
      · split
        · rfl
        · split
          · rfl
          · rw [he]
  · intro a mem' db' h
    unfold check_and_create_alert at h
    dsimp only at h
    split at h
    · simp at h
    · split at h
      · simp at h
      · split at h
        · simp at h
        case _ score_result heq =>
          split at h
          · simp at h
          case _ hq =>
            split at h
            · simp at h
            case _ alert_id hins =>
              simp only [Prod.mk.injEq] at h
              obtain ⟨-, h2, h3⟩ := h
              exact ⟨⟨score_result, heq, by simpa using hq⟩, ⟨alert_id, hins⟩,
                h2.symm, h3.symm⟩

/-! ## C8: two concurrent qualifying scoring calls -/

/-- A behaviour under which scoring `AAPL` with current volume 1,000,000
qualifies: a 10× exceptional volume spike with sustained volume (60
volume-technical points; the price history is too short for indicators, so
that block is skipped), two strong catalysts, a successful short-interest
envelope giving squeeze score 80 and pump score 90 (with the pump flag
set), healthy fundamentals, and no dilution risk. -/
def bQual : Behavior :=
  { currentPrice := .ok (some { close := 10, volume := 500 })
    volumeStats := .ok { average_volume := 100000, median_volume := 100000 }
    sustainedHistory := .ok [1000000, 1000000, 1000000]
    priceHistory := .ok []
    priceRange := .ok { high := some 10, low := some 10, close := some 10 }
    news := { success := true, articles :=
      [{ catalyst_type := "biotech_phase3", title := "Phase 3 readout",
         sentiment_score := 96/100 },
       { catalyst_type := "buyout_merger", title := "Acquisition interest",
         sentiment_score := 9/10 }] }
    shortInterest := { success := true, error := none,
                       data := { error := none, short_percent_float := some 30,
                                 days_to_cover := some 10, shares_short := some 1000000,
                                 shares_outstanding := some 10000000,
                                 average_volume := some 100000 } }
    fundamentals := { success := true,
                      data := { error := none, float_shares := some 20000000,
                                market_cap := some 100000000 } }
    fundamental := { score := 100, passes_filters := true, factors := [], risk_factors := [] }
    dilution := { has_dilution_risk := false, has_recent_dilution := false,
                  has_reverse_split := false } }

/-- Both tasks start with empty dedup state. -/
def concInit : ConcState := { mem := [], db := [], pcA := .start, pcB := .start }

/-- The alternating scheduler: tasks A and B take one await-delimited step
each in turn, so both pass the dedup and rate-limit checks before either
persists its alert. -/
def concSched : List Bool := [true, false, true, false, true, false, true, false]

/-- The final system state of the two interleaved calls. -/
def concFinal : ConcState :=
  runConc (calculate_score bQual "AAPL" (some 1000000)) (.ok 1) pruneClock "AAPL"
    concInit concSched

set_option maxRecDepth 100000 in
/-- **C8 (code-bug evaluation).**  The claim requires that two simultaneous
qualifying scoring calls for the same ticker never both produce an alert.
`check_and_create_alert` holds no lock: its dedup and rate-limit checks each
await a database query, so under the alternating schedule both tasks pass
both checks against the still-empty state, and then both persist — the final
state records two `AAPL` alerts created at the same instant (at time
29148550, the `pruneClock` instant), well inside the deduplication window. -/
theorem concurrent_calls_both_alert :
    (calculate_score bQual "AAPL" (some 1000000)).toOption.map (fun r => r.qualifies)
      = some true ∧
    concFinal.pcA = .done true ∧ concFinal.pcB = .done true ∧
    concFinal.db.map (fun a => a.ticker) = ["AAPL", "AAPL"] ∧
    concFinal.db.map (fun a => a.created_at) = [29148550, 29148550] := by
  with_unfolding_all decide

/-- Witness for C10: a raising scoring call and a raising insert each yield
`None` with the dedup set and database unchanged, and a successful call
records the key only after persisting. -/
theorem check_and_create_alert_failure_semantics_witness :
    check_and_create_alert { scoring := bDbDown, insert := .ok 1 } ["X:2025-06-01-10"]
      [] pruneClock "AAPL" (some 1000) = (none, ["X:2025-06-01-10"], []) ∧
    check_and_create_alert { scoring := bNewsFail, insert := .error "db insert failed" }
      [] [] pruneClock "AAPL" none = (none, [], []) ∧
    (∃ r, calculate_score bQual (normalize_ticker "AAPL") (some 1000000) = .ok r ∧
      r.qualifies = true) := by
  refine ⟨?_, ?_, ?_⟩
  · exact (check_and_create_alert_failure_semantics
      { scoring := bDbDown, insert := .ok 1 } ["X:2025-06-01-10"] [] pruneClock
      "AAPL" (some 1000)).1 "database connection lost" (by with_unfolding_all rfl)
  · exact (check_and_create_alert_failure_semantics
      { scoring := bNewsFail, insert := .error "db insert failed" } [] [] pruneClock
      "AAPL" none).2.1 "db insert failed" rfl
  · exact ((check_and_create_alert_failure_semantics
      { scoring := bQual, insert := .ok 7 } [] [] pruneClock
      "AAPL" (some 1000000)).2.2 _ _ _ (by with_unfolding_all rfl)).1

end Star
